import Mathlib

/-!
# Verification of the OpenClaw ACP delivery coordinator and event projector

This file embeds, in Lean, the ACP turn-delivery coordinator
(`createAcpDispatchDeliveryCoordinator` from `dispatch-acp-delivery.ts`)
and the prompt-event projector (`parsePromptEventLine` from the acpx
runtime internals), and proves properties about them.

Modelling conventions:
* JavaScript `async` functions that may reject are modelled as functions
  returning `Except String _`; a `try`/`catch` in the source becomes a
  `match` on the `Except` value, and the absence of a `try`/`catch`
  becomes propagation of the `.error` case.
* The external collaborators (TTS transform, `routeReply`,
  `runMessageAction`, the direct dispatcher sink methods) are modelled as
  oracle functions supplied as a parameter, since they are external to the
  coordinator.  Every outbound invocation of a collaborator is recorded in
  a trace (`List SinkCall`) so that call counts and call arguments can be
  stated.
* Mutable per-turn state (`AcpDispatchDeliveryState`) is threaded
  explicitly; a JS `Map` becomes an association list with `Map.set` /
  `Map.get` semantics.
* JavaScript string truthiness (`if (s)`) is `s ≠ ""`; optional values are
  `Option`.
-/

namespace OpenClaw

/-- JS `String.prototype.trim()`: strip whitespace from both ends.
Defined on the character list so that the kernel can evaluate it (the
core `String.trim` is kernel-opaque). -/
def jsTrim (s : String) : String :=
  ⟨((s.data.dropWhile Char.isWhitespace).reverse.dropWhile
      Char.isWhitespace).reverse⟩

/-- JS truthiness of a string: non-empty. -/
def strTruthy (s : String) : Bool := s ≠ ""

/-- JS truthiness of an optional string: present and non-empty. -/
def optStrTruthy : Option String → Bool
  | some s => strTruthy s
  | none => false

/-- Keep an optional string only when it is truthy, mirroring the JS
object-spread idiom `...(tag ? \x7b tag \x7d : \x7b\x7d)`. -/
def optStrIfTruthy : Option String → Option String
  | some s => if s = "" then none else some s
  | none => none

/-- `ReplyDispatchKind` — the closed enum of delivery kinds. -/
inductive ReplyDispatchKind where
  | tool
  | block
  | final
deriving DecidableEq, Repr

/-- A chat thread identifier (`string | number` in the source). -/
inductive ThreadId where
  | str (s : String)
  | num (n : Int)
deriving DecidableEq, Repr

/-- `ReplyPayload` — the delivered payload; only the fields the
coordinator inspects (`text`, `mediaUrl`, `mediaUrls`). -/
structure ReplyPayload where
  text : Option String := none
  mediaUrl : Option String := none
  mediaUrls : Option (List String) := none
deriving DecidableEq, Repr

/-- `AcpDispatchDeliveryMeta` — optional per-delivery metadata. -/
structure AcpDispatchDeliveryMeta where
  toolCallId : Option String := none
  allowEdit : Option Bool := none
deriving DecidableEq, Repr

/-- `ToolMessageHandle` — the recorded identity of the chat message that
currently displays a tool call's status. -/
structure ToolMessageHandle where
  channel : String
  accountId : Option String := none
  «to» : String
  threadId : Option ThreadId := none
  messageId : String
deriving DecidableEq, Repr

/-- Per-kind routed-delivery counters. -/
structure RoutedCounts where
  tool : Nat
  block : Nat
  final : Nat
deriving DecidableEq, Repr

/-- The all-zero counters a fresh coordinator starts with. -/
def RoutedCounts.zero : RoutedCounts := { tool := 0, block := 0, final := 0 }

/-- `state.routedCounts[kind] += 1`. -/
def RoutedCounts.incr (c : RoutedCounts) : ReplyDispatchKind → RoutedCounts
  | ReplyDispatchKind.tool => { c with tool := c.tool + 1 }
  | ReplyDispatchKind.block => { c with block := c.block + 1 }
  | ReplyDispatchKind.final => { c with final := c.final + 1 }

/-- Read one kind's counter. -/
def RoutedCounts.get (c : RoutedCounts) : ReplyDispatchKind → Nat
  | ReplyDispatchKind.tool => c.tool
  | ReplyDispatchKind.block => c.block
  | ReplyDispatchKind.final => c.final

/-- JS `Map.get` on an association list. -/
def mapGet (m : List (String × ToolMessageHandle)) (k : String) :
    Option ToolMessageHandle :=
  (m.find? fun kv => kv.1 = k).map fun kv => kv.2

/-- JS `Map.set` on an association list: replace in place when the key is
present, append otherwise. -/
def mapSet (m : List (String × ToolMessageHandle)) (k : String)
    (v : ToolMessageHandle) : List (String × ToolMessageHandle) :=
  if m.any fun kv => kv.1 = k then
    m.map fun kv => if kv.1 = k then (k, v) else kv
  else
    m ++ [(k, v)]

/-- `AcpDispatchDeliveryState` — the coordinator's per-turn mutable state. -/
structure AcpDispatchDeliveryState where
  startedReplyLifecycle : Bool
  accumulatedBlockText : String
  blockCount : Nat
  routedCounts : RoutedCounts
  toolMessageByCallId : List (String × ToolMessageHandle)
deriving DecidableEq, Repr

/-- The initial state built by `createAcpDispatchDeliveryCoordinator`. -/
def initialDeliveryState : AcpDispatchDeliveryState :=
  { startedReplyLifecycle := false
    accumulatedBlockText := ""
    blockCount := 0
    routedCounts := RoutedCounts.zero
    toolMessageByCallId := [] }

/-- The coordinator's construction parameters (the fields of `params` and
of `params.ctx` that the coordinator reads). -/
structure CoordinatorParams where
  shouldRouteToOriginating : Bool
  originatingChannel : Option String := none
  originatingTo : Option String := none
  sessionKey : String
  accountId : Option String := none
  messageThreadId : Option ThreadId := none
deriving Repr

/-- Arguments of a `runMessageAction` edit invocation. -/
structure EditParams where
  channel : String
  accountId : Option String
  «to» : String
  threadId : Option ThreadId
  messageId : String
  message : String
deriving DecidableEq, Repr

/-- Arguments of a `routeReply` invocation. -/
structure RouteReplyArgs where
  payload : ReplyPayload
  channel : String
  «to» : String
  sessionKey : String
  accountId : Option String
  threadId : Option ThreadId
deriving DecidableEq, Repr

/-- Result object resolved by `routeReply`. -/
structure RouteReplyResult where
  ok : Bool
  messageId : Option String := none
  error : Option String := none
deriving DecidableEq, Repr

/-- One recorded outbound invocation of an external collaborator. -/
inductive SinkCall where
  | replyStart
  | messageActionEdit (p : EditParams)
  | routeReplyCall (a : RouteReplyArgs)
  | sendToolResult (p : ReplyPayload)
  | sendBlockReply (p : ReplyPayload)
  | sendFinalReply (p : ReplyPayload)
deriving DecidableEq, Repr

deriving instance DecidableEq for Except

/-- The external collaborators, as oracles.  A JS rejection/throw is the
`.error` case. -/
structure SinkOracles where
  tts : ReplyPayload → Except String ReplyPayload
  runMessageAction : EditParams → Except String Unit
  routeReply : RouteReplyArgs → Except String RouteReplyResult
  sendToolResult : ReplyPayload → Except String Bool
  sendBlockReply : ReplyPayload → Except String Bool
  sendFinalReply : ReplyPayload → Except String Bool

/-- `startReplyLifecycleOnce`: latch check-and-set; invokes the
`onReplyStart` callback (recorded as `SinkCall.replyStart`) only on the
first call. -/
def startReplyLifecycleOnce (st : AcpDispatchDeliveryState) :
    AcpDispatchDeliveryState × List SinkCall :=
  if st.startedReplyLifecycle then
    (st, [])
  else
    ({ st with startedReplyLifecycle := true }, [SinkCall.replyStart])

/-- `payload.text?.trim()` with JS truthiness. -/
def payloadTrimmedText (p : ReplyPayload) : String :=
  (p.text.map jsTrim).getD ""

/-- `tryEditToolMessage(payload, toolCallId)`: attempt edit-in-place for a
previously recorded tool message handle.  Returns `true` only when the
edit action succeeded; every guard failure and a throwing action yield
`false`. -/
def tryEditToolMessage (P : CoordinatorParams) (O : SinkOracles)
    (st : AcpDispatchDeliveryState) (payload : ReplyPayload)
    (toolCallId : String) :
    Bool × AcpDispatchDeliveryState × List SinkCall :=
  if !(P.shouldRouteToOriginating && optStrTruthy P.originatingChannel
      && optStrTruthy P.originatingTo) then
    (false, st, [])
  else
    match mapGet st.toolMessageByCallId toolCallId with
    | none => (false, st, [])
    | some handle =>
      if handle.messageId = "" then
        (false, st, [])
      else
        let message := payloadTrimmedText payload
        if message = "" then
          (false, st, [])
        else
          let args : EditParams :=
            { channel := handle.channel
              accountId := handle.accountId
              «to» := handle.«to»
              threadId := handle.threadId
              messageId := handle.messageId
              message := message }
          match O.runMessageAction args with
          | Except.ok _ =>
            (true,
              { st with routedCounts := st.routedCounts.incr ReplyDispatchKind.tool },
              [SinkCall.messageActionEdit args])
          | Except.error _ =>
            (false, st, [SinkCall.messageActionEdit args])

/-- Step 1 of `deliver`: block-text accumulation. -/
def deliverAccumulate (st : AcpDispatchDeliveryState)
    (kind : ReplyDispatchKind) (payload : ReplyPayload) :
    AcpDispatchDeliveryState :=
  if kind = ReplyDispatchKind.block && strTruthy (payloadTrimmedText payload) then
    { st with
      accumulatedBlockText :=
        (if st.accumulatedBlockText.length > 0 then
          st.accumulatedBlockText ++ "\n"
        else st.accumulatedBlockText) ++ payload.text.getD ""
      blockCount := st.blockCount + 1 }
  else
    st

/-- `(payload.text?.trim() ?? "").length > 0 || payload.mediaUrl ||
payload.mediaUrls?.length` — visible-content test for lifecycle start. -/
def hasVisibleContent (p : ReplyPayload) : Bool :=
  strTruthy (payloadTrimmedText p) || optStrTruthy p.mediaUrl ||
    (match p.mediaUrls with
      | some l => decide (l.length ≠ 0)
      | none => false)

/-- Step 2 of `deliver`: trigger the one-shot reply lifecycle when the
payload carries visible content. -/
def deliverLifecycle (st : AcpDispatchDeliveryState) (payload : ReplyPayload) :
    AcpDispatchDeliveryState × List SinkCall :=
  if hasVisibleContent payload then startReplyLifecycleOnce st else (st, [])

/-- The routed-path send: `routeReply` to the originating channel, then on
success conditionally record the tool message handle and increment the
per-kind counter. -/
def deliverRoutedSend (P : CoordinatorParams) (O : SinkOracles)
    (st : AcpDispatchDeliveryState) (kind : ReplyDispatchKind)
    (ttsPayload : ReplyPayload) (meta : Option AcpDispatchDeliveryMeta) :
    Except String Bool × AcpDispatchDeliveryState × List SinkCall :=
  let args : RouteReplyArgs :=
    { payload := ttsPayload
      channel := P.originatingChannel.getD ""
      «to» := P.originatingTo.getD ""
      sessionKey := P.sessionKey
      accountId := P.accountId
      threadId := P.messageThreadId }
  match O.routeReply args with
  | Except.error e => (Except.error e, st, [SinkCall.routeReplyCall args])
  | Except.ok result =>
    if !result.ok then
      (Except.ok false, st, [SinkCall.routeReplyCall args])
    else
      let metaToolCallId := meta.bind fun m => m.toolCallId
      let st' :=
        if kind = ReplyDispatchKind.tool && optStrTruthy metaToolCallId
            && optStrTruthy result.messageId then
          { st with
            toolMessageByCallId :=
              mapSet st.toolMessageByCallId (metaToolCallId.getD "")
                { channel := P.originatingChannel.getD ""
                  accountId := P.accountId
                  «to» := P.originatingTo.getD ""
                  threadId := P.messageThreadId
                  messageId := result.messageId.getD "" } }
        else st
      (Except.ok true,
        { st' with routedCounts := st'.routedCounts.incr kind },
        [SinkCall.routeReplyCall args])

/-- The routed branch of `deliver`: optional edit-in-place attempt for
tool deliveries, falling through to `deliverRoutedSend` when the edit was
not applicable or failed. -/
def deliverRouted (P : CoordinatorParams) (O : SinkOracles)
    (st : AcpDispatchDeliveryState) (kind : ReplyDispatchKind)
    (ttsPayload : ReplyPayload) (meta : Option AcpDispatchDeliveryMeta) :
    Except String Bool × AcpDispatchDeliveryState × List SinkCall :=
  let toolCallId := (meta.bind fun m => m.toolCallId).map jsTrim
  if kind = ReplyDispatchKind.tool
      && ((meta.bind fun m => m.allowEdit) = some true : Bool)
      && optStrTruthy toolCallId then
    let r := tryEditToolMessage P O st ttsPayload (toolCallId.getD "")
    if r.1 then
      (Except.ok true, r.2.1, r.2.2)
    else
      let s := deliverRoutedSend P O r.2.1 kind ttsPayload meta
      (s.1, s.2.1, r.2.2 ++ s.2.2)
  else
    deliverRoutedSend P O st kind ttsPayload meta

/-- The direct-dispatch branch of `deliver`: delegate to the kind-specific
dispatcher sink and return its result verbatim. -/
def deliverDirect (O : SinkOracles) (st : AcpDispatchDeliveryState)
    (kind : ReplyDispatchKind) (ttsPayload : ReplyPayload) :
    Except String Bool × AcpDispatchDeliveryState × List SinkCall :=
  match kind with
  | ReplyDispatchKind.tool =>
    match O.sendToolResult ttsPayload with
    | Except.error e => (Except.error e, st, [SinkCall.sendToolResult ttsPayload])
    | Except.ok b => (Except.ok b, st, [SinkCall.sendToolResult ttsPayload])
  | ReplyDispatchKind.block =>
    match O.sendBlockReply ttsPayload with
    | Except.error e => (Except.error e, st, [SinkCall.sendBlockReply ttsPayload])
    | Except.ok b => (Except.ok b, st, [SinkCall.sendBlockReply ttsPayload])
  | ReplyDispatchKind.final =>
    match O.sendFinalReply ttsPayload with
    | Except.error e => (Except.error e, st, [SinkCall.sendFinalReply ttsPayload])
    | Except.ok b => (Except.ok b, st, [SinkCall.sendFinalReply ttsPayload])

/-- `deliver(kind, payload, meta)`: block accumulation, lifecycle trigger,
TTS transform, then routed or direct dispatch.  The first component is the
returned boolean (`.error` when the underlying JS promise would reject). -/
def deliver (P : CoordinatorParams) (O : SinkOracles)
    (st : AcpDispatchDeliveryState) (kind : ReplyDispatchKind)
    (payload : ReplyPayload) (meta : Option AcpDispatchDeliveryMeta) :
    Except String Bool × AcpDispatchDeliveryState × List SinkCall :=
  let st1 := deliverAccumulate st kind payload
  let l := deliverLifecycle st1 payload
  match O.tts payload with
  | Except.error e => (Except.error e, l.1, l.2)
  | Except.ok ttsPayload =>
    if P.shouldRouteToOriginating && optStrTruthy P.originatingChannel
        && optStrTruthy P.originatingTo then
      let r := deliverRouted P O l.1 kind ttsPayload meta
      (r.1, r.2.1, l.2 ++ r.2.2)
    else
      let r := deliverDirect O l.1 kind ttsPayload
      (r.1, r.2.1, l.2 ++ r.2.2)

/-! ## Sequences of coordinator calls

One coordinator instance is driven by a sequence of `startReplyLifecycle`
and `deliver` invocations; `runCalls` folds such a sequence over the
state, concatenating the sink-call traces. -/

/-- One public call on the coordinator. -/
inductive CoordCall where
  | start
  | deliverCall (kind : ReplyDispatchKind) (payload : ReplyPayload)
      (meta : Option AcpDispatchDeliveryMeta)
deriving Repr

/-- Fold a sequence of coordinator calls over the state, collecting the
trace of outbound sink invocations. -/
def runCalls (P : CoordinatorParams) (O : SinkOracles) :
    AcpDispatchDeliveryState → List CoordCall →
    AcpDispatchDeliveryState × List SinkCall
  | st, [] => (st, [])
  | st, c :: rest =>
    let step :=
      match c with
      | CoordCall.start => startReplyLifecycleOnce st
      | CoordCall.deliverCall kind payload meta =>
        let r := deliver P O st kind payload meta
        (r.2.1, r.2.2)
    let acc := runCalls P O step.1 rest
    (acc.1, step.2 ++ acc.2)

/-- Whether one coordinator call triggers the reply lifecycle: a direct
`startReplyLifecycle` always does; a `deliver` does exactly when its
payload carries visible content. -/
def triggersLifecycle : CoordCall → Bool
  | CoordCall.start => true
  | CoordCall.deliverCall _ payload _ => hasVisibleContent payload

/-- Recognize a reply-lifecycle-start trace entry. -/
def isReplyStart : SinkCall → Bool
  | SinkCall.replyStart => true
  | _ => false

/-- Recognize a `routeReply` trace entry. -/
def isRouteReplyCall : SinkCall → Bool
  | SinkCall.routeReplyCall _ => true
  | _ => false

/-- Recognize a `runMessageAction` edit trace entry. -/
def isEditCall : SinkCall → Bool
  | SinkCall.messageActionEdit _ => true
  | _ => false

/-- Number of reply-lifecycle starts in a trace. -/
def countReplyStarts (tr : List SinkCall) : Nat := (tr.filter isReplyStart).length

/-- Number of `routeReply` invocations in a trace. -/
def countRouteReplyCalls (tr : List SinkCall) : Nat :=
  (tr.filter isRouteReplyCall).length

/-- Number of edit-action invocations in a trace. -/
def countEditCalls (tr : List SinkCall) : Nat := (tr.filter isEditCall).length

/-- The arguments of the edit-action invocations in a trace, in order. -/
def editCallsOf (tr : List SinkCall) : List EditParams :=
  tr.filterMap fun c =>
    match c with
    | SinkCall.messageActionEdit p => some p
    | _ => none

/-- Modelled from the spec: the turn dispatch controller
(`tryDispatchAcpReply`, whose implementation is not among the sources —
only its tests are) drives one turn by classifying each projected event
and invoking the coordinator's `deliver` once per visible classified
event, in emission order; suppressed/hidden events produce no `deliver`
call, and the controller does not call `startReplyLifecycle` directly on
this path. -/
def controllerDeliverTurn (P : CoordinatorParams) (O : SinkOracles)
    (deliveries : List (ReplyDispatchKind × ReplyPayload ×
      Option AcpDispatchDeliveryMeta)) :
    AcpDispatchDeliveryState × List SinkCall :=
  runCalls P O initialDeliveryState
    (deliveries.map fun d => CoordCall.deliverCall d.1 d.2.1 d.2.2)

/-! ## Event projector (`parsePromptEventLine` and friends)

The projector works on parsed JSON values.  A JavaScript number is
modelled by its finiteness (`Number.isFinite`) and its decimal rendering
(the result of JS string interpolation); no arithmetic is performed on
numbers anywhere in the projector. -/

/-- A JavaScript number, abstracted to what the projector observes of it. -/
structure JsNumber where
  finite : Bool
  asStr : String
deriving DecidableEq, Repr

/-- A parsed JSON value (JS `unknown` after `JSON.parse`). -/
inductive Json where
  | str (s : String)
  | num (n : JsNumber)
  | bool (b : Bool)
  | null
  | arr (elems : List Json)
  | obj (fields : List (String × Json))

/-- The fields of a JS plain-object record. -/
abbrev JsonObj := List (String × Json)

/-- JS property access `o.key` (absent property = `undefined` = `none`). -/
def jsonGet (o : JsonObj) (key : String) : Option Json :=
  (o.find? fun kv => kv.1 = key).map fun kv => kv.2

/-- Modelled from the spec: `isRecord` from the missing `shared.js` —
a non-null plain object (not an array). -/
def isRecordOpt : Option Json → Option JsonObj
  | some (Json.obj fields) => some fields
  | _ => none

/-- Modelled from the spec: `asString` from the missing `shared.js` —
the value itself when it is a string, otherwise `undefined`. -/
def asString : Option Json → Option String
  | some (Json.str s) => some s
  | _ => none

/-- Modelled from the spec: `asTrimmedString` from the missing
`shared.js` — the trimmed string when the value is a string, otherwise
the empty string. -/
def asTrimmedString : Option Json → String
  | some (Json.str s) => jsTrim s
  | _ => ""

/-- Modelled from the spec: `asOptionalString` from the missing
`shared.js` — the string itself when the value is a string, otherwise
`undefined`. -/
def asOptionalString : Option Json → Option String
  | some (Json.str s) => some s
  | _ => none

/-- Modelled from the spec: `asOptionalBoolean` from the missing
`shared.js` — the boolean itself when the value is a boolean, otherwise
`undefined`. -/
def asOptionalBoolean : Option Json → Option Bool
  | some (Json.bool b) => some b
  | _ => none

/-- `asOptionalFiniteNumber`: the value when it is a finite number,
otherwise `undefined` (non-finite and non-numeric values are missing,
never zero). -/
def asOptionalFiniteNumber : Option Json → Option JsNumber
  | some (Json.num n) => if n.finite then some n else none
  | _ => none

/-- JS string `||`: the left operand unless it is empty. -/
def strOr (a b : String) : String := if a = "" then b else a

/-- A normalized runtime event (`AcpRuntimeEvent`). -/
inductive StreamKind where
  | output
  | thought
deriving DecidableEq, Repr

/-- The normalized event union produced by the projector. -/
inductive AcpRuntimeEvent where
  | text_delta (text : String) (stream : StreamKind) (tag : Option String)
  | tool_call (text : String) (tag : String) (toolCallId : Option String)
      (status : Option String) (title : String)
  | status (text : String) (tag : Option String)
      (used : Option JsNumber) (size : Option JsNumber)
  | done (stopReason : Option String)
  | error (message : String) (code : Option String) (retryable : Option Bool)
deriving DecidableEq, Repr

/-- Result of `resolveStructuredPromptPayload`. -/
structure StructuredPayload where
  type : String
  payload : JsonObj
  tag : Option String

/-- The flat-object fallback of `resolveStructuredPromptPayload`: a flat
`sessionUpdate` field wins over a plain `type` discriminator. -/
def resolveFlatPromptPayload (parsed : JsonObj) : StructuredPayload :=
  let sessionUpdate := asOptionalString (jsonGet parsed "sessionUpdate")
  if optStrTruthy sessionUpdate then
    { type := sessionUpdate.getD ""
      payload := parsed
      tag := sessionUpdate }
  else
    { type := asTrimmedString (jsonGet parsed "type")
      payload := parsed
      tag := optStrIfTruthy (asOptionalString (jsonGet parsed "tag")) }

/-- `resolveStructuredPromptPayload`: unwrap a JSON-RPC
`method:"session/update"` envelope, else fall back to the flat shapes. -/
def resolveStructuredPromptPayload (parsed : JsonObj) : StructuredPayload :=
  if asTrimmedString (jsonGet parsed "method") = "session/update" then
    match isRecordOpt (jsonGet parsed "params") with
    | some params =>
      match isRecordOpt (jsonGet params "update") with
      | some update =>
        let tag := asOptionalString (jsonGet update "sessionUpdate")
        { type := tag.getD ""
          payload := update
          tag := optStrIfTruthy tag }
      | none => resolveFlatPromptPayload parsed
    | none => resolveFlatPromptPayload parsed
  else
    resolveFlatPromptPayload parsed

/-- `resolveStatusTextForTag`: the human status line for the status-like
session update tags, `none` when no displayable text can be derived. -/
def resolveStatusTextForTag (tag : String) (payload : JsonObj) :
    Option String :=
  if tag = "available_commands_update" then
    let commands :=
      match jsonGet payload "availableCommands" with
      | some (Json.arr elems) => elems
      | _ => []
    some (if commands.length > 0 then
      "available commands updated (" ++ toString commands.length ++ ")"
    else "available commands updated")
  else if tag = "current_mode_update" then
    let mode :=
      strOr (asTrimmedString (jsonGet payload "currentModeId"))
        (strOr (asTrimmedString (jsonGet payload "modeId"))
          (asTrimmedString (jsonGet payload "mode")))
    some (if mode ≠ "" then "mode updated: " ++ mode else "mode updated")
  else if tag = "config_option_update" then
    let id :=
      strOr (asTrimmedString (jsonGet payload "id"))
        (asTrimmedString (jsonGet payload "configOptionId"))
    let value :=
      strOr (asTrimmedString (jsonGet payload "currentValue"))
        (strOr (asTrimmedString (jsonGet payload "value"))
          (asTrimmedString (jsonGet payload "optionValue")))
    some (if id ≠ "" && value ≠ "" then
      "config updated: " ++ id ++ "=" ++ value
    else if id ≠ "" then "config updated: " ++ id
    else "config updated")
  else if tag = "session_info_update" then
    some (strOr (asTrimmedString (jsonGet payload "summary"))
      (strOr (asTrimmedString (jsonGet payload "message")) "session updated"))
  else if tag = "plan" then
    let entries :=
      match jsonGet payload "entries" with
      | some (Json.arr elems) => elems
      | _ => []
    let first :=
      entries.find? fun entry =>
        match entry with
        | Json.obj _ => true
        | _ => false
    let content :=
      match first with
      | some (Json.obj fields) => asTrimmedString (jsonGet fields "content")
      | _ => asTrimmedString none
    if content ≠ "" then some ("plan: " ++ content) else none
  else
    none

/-- `resolveTextChunk`: extract streamed chunk text, preferring a nested
`content` record (dropping non-text content types), falling back to a
flat `text` field. -/
def resolveTextChunk (payload : JsonObj) (stream : StreamKind)
    (tag : String) : Option AcpRuntimeEvent :=
  let fromFlat : Option AcpRuntimeEvent :=
    match asString (jsonGet payload "text") with
    | some t =>
      if t.length = 0 then none
      else some (AcpRuntimeEvent.text_delta t stream (some tag))
    | none => none
  match isRecordOpt (jsonGet payload "content") with
  | some content =>
    let contentType := asTrimmedString (jsonGet content "type")
    if contentType ≠ "" && contentType ≠ "text" then
      none
    else
      match asString (jsonGet content "text") with
      | some t =>
        if t.length > 0 then
          some (AcpRuntimeEvent.text_delta t stream (some tag))
        else fromFlat
      | none => fromFlat
  | none => fromFlat

/-- The per-type switch of `parsePromptEventLine`, applied to the
resolved structured payload. -/
def parseStructuredPromptEvent (structured : StructuredPayload) :
    Option AcpRuntimeEvent :=
  let type := structured.type
  let payload := structured.payload
  let tag := structured.tag
  if type = "text" then
    match asString (jsonGet payload "content") with
    | some content =>
      if content.length = 0 then none
      else some (AcpRuntimeEvent.text_delta content StreamKind.output
        (optStrIfTruthy tag))
    | none => none
  else if type = "thought" then
    match asString (jsonGet payload "content") with
    | some content =>
      if content.length = 0 then none
      else some (AcpRuntimeEvent.text_delta content StreamKind.thought
        (optStrIfTruthy tag))
    | none => none
  else if type = "tool_call" then
    let title := strOr (asTrimmedString (jsonGet payload "title")) "tool call"
    let status := asTrimmedString (jsonGet payload "status")
    let toolCallId := asOptionalString (jsonGet payload "toolCallId")
    some (AcpRuntimeEvent.tool_call
      (if status ≠ "" then title ++ " (" ++ status ++ ")" else title)
      (tag.getD "tool_call")
      (optStrIfTruthy toolCallId)
      (if status ≠ "" then some status else none)
      title)
  else if type = "tool_call_update" then
    let title := strOr (asTrimmedString (jsonGet payload "title")) "tool call"
    let status := asTrimmedString (jsonGet payload "status")
    let toolCallId := asOptionalString (jsonGet payload "toolCallId")
    some (AcpRuntimeEvent.tool_call
      (if status ≠ "" then title ++ " (" ++ status ++ ")" else title)
      (tag.getD "tool_call_update")
      (optStrIfTruthy toolCallId)
      (if status ≠ "" then some status else none)
      title)
  else if type = "agent_message_chunk" then
    resolveTextChunk payload StreamKind.output "agent_message_chunk"
  else if type = "agent_thought_chunk" then
    resolveTextChunk payload StreamKind.thought "agent_thought_chunk"
  else if type = "usage_update" then
    let used := asOptionalFiniteNumber (jsonGet payload "used")
    let size := asOptionalFiniteNumber (jsonGet payload "size")
    let text :=
      match used, size with
      | some u, some s => "usage updated: " ++ u.asStr ++ "/" ++ s.asStr
      | _, _ => "usage updated"
    some (AcpRuntimeEvent.status text (some "usage_update") used size)
  else if type = "available_commands_update" ∨ type = "current_mode_update"
      ∨ type = "config_option_update" ∨ type = "session_info_update"
      ∨ type = "plan" then
    match resolveStatusTextForTag type payload with
    | some text => some (AcpRuntimeEvent.status text (some type) none none)
    | none => none
  else if type = "client_operation" then
    let method := strOr (asTrimmedString (jsonGet payload "method")) "operation"
    let status := asTrimmedString (jsonGet payload "status")
    let summary := asTrimmedString (jsonGet payload "summary")
    let text :=
      String.intercalate " " (([method, status, summary]).filter fun s => s ≠ "")
    if text = "" then none
    else some (AcpRuntimeEvent.status text (optStrIfTruthy tag) none none)
  else if type = "update" then
    let update := asTrimmedString (jsonGet payload "update")
    if update = "" then none
    else some (AcpRuntimeEvent.status update (optStrIfTruthy tag) none none)
  else if type = "done" then
    some (AcpRuntimeEvent.done (asOptionalString (jsonGet payload "stopReason")))
  else if type = "error" then
    some (AcpRuntimeEvent.error
      (strOr (asTrimmedString (jsonGet payload "message")) "acpx runtime error")
      (asOptionalString (jsonGet payload "code"))
      (asOptionalBoolean (jsonGet payload "retryable")))
  else
    none

/-- `parsePromptEventLine(line)`: trim, `JSON.parse` (supplied as the
oracle `parseJson`, since JSON parsing is a JS builtin external to the
projector), degrade unparseable non-empty lines to an opaque status
event, drop non-record values, then dispatch on the resolved type. -/
def parsePromptEventLine (parseJson : String → Option Json) (line : String) :
    Option AcpRuntimeEvent :=
  let trimmed := jsTrim line
  if trimmed = "" then
    none
  else
    match parseJson trimmed with
    | none => some (AcpRuntimeEvent.status trimmed none none none)
    | some parsed =>
      match parsed with
      | Json.obj fields =>
        parseStructuredPromptEvent (resolveStructuredPromptPayload fields)
      | _ => none


/-- The boolean result the direct-dispatch path hands back: the
kind-specific dispatcher sink's own result. -/
def directSinkResult (O : SinkOracles) (kind : ReplyDispatchKind)
    (tp : ReplyPayload) : Except String Bool :=
  match kind with
  | ReplyDispatchKind.tool => O.sendToolResult tp
  | ReplyDispatchKind.block => O.sendBlockReply tp
  | ReplyDispatchKind.final => O.sendFinalReply tp

/-- `getRoutedCounts()` (the defensive copy is the value itself here). -/
def getRoutedCounts (st : AcpDispatchDeliveryState) : RoutedCounts :=
  st.routedCounts

/-- The originating-channel configuration used by the routed-path
scenarios (mirrors the repository's test fixtures). -/
def routedParams : CoordinatorParams :=
  { shouldRouteToOriginating := true
    originatingChannel := some "telegram"
    originatingTo := some "telegram:thread-1"
    sessionKey := "agent:codex-acp:session-1" }

/-- A configuration that does not route to an originating channel. -/
def directParams : CoordinatorParams :=
  { shouldRouteToOriginating := false
    sessionKey := "agent:codex-acp:session-1" }

/-- Well-behaved collaborators: TTS passthrough, edits succeed, routing
succeeds with message id `tool-msg-1`, dispatcher sinks accept. -/
def oraclesEditOk : SinkOracles :=
  { tts := fun p => Except.ok p
    runMessageAction := fun _ => Except.ok ()
    routeReply := fun _ => Except.ok ⟨true, some "tool-msg-1", none⟩
    sendToolResult := fun _ => Except.ok true
    sendBlockReply := fun _ => Except.ok true
    sendFinalReply := fun _ => Except.ok true }

/-- Same collaborators, but the edit message-action rejects. -/
def oraclesEditThrows : SinkOracles :=
  { oraclesEditOk with
    runMessageAction := fun _ => Except.error "edit unsupported" }

/-- Same collaborators, but the final-reply dispatcher sink throws. -/
def oraclesFinalThrows : SinkOracles :=
  { oraclesEditOk with
    sendFinalReply := fun _ => Except.error "boom" }

/-- A `usage_update` protocol update record (sample envelope payload). -/
def usageUpdateFields : JsonObj :=
  [("sessionUpdate", Json.str "usage_update"),
   ("used", Json.num ⟨true, "12"⟩), ("size", Json.num ⟨true, "500"⟩)]

/-- The `params` object of the sample `session/update` envelope. -/
def usageParamsFields : JsonObj :=
  [("sessionId", Json.str "s1"), ("update", Json.obj usageUpdateFields)]

/-- The sample `session/update` JSON-RPC envelope. -/
def usageEnvFields : JsonObj :=
  [("jsonrpc", Json.str "2.0"), ("method", Json.str "session/update"),
   ("params", Json.obj usageParamsFields)]

/-- A JSON.parse oracle producing the sample usage envelope. -/
def usageParseOracle : String → Option Json :=
  fun s => if s = "usage-line" then some (Json.obj usageEnvFields) else none

/-- A flat error event object with a code and a retryable flag but no
message. -/
def errorFlatFields : JsonObj :=
  [("type", Json.str "error"), ("code", Json.str "E42"),
   ("retryable", Json.bool true)]

/-- A JSON.parse oracle producing the flat error object. -/
def errorParseOracle : String → Option Json :=
  fun s => if s = "error-line" then
    some (Json.obj errorFlatFields) else none

/-! ## Frame lemmas for the coordinator -/

theorem countReplyStarts_append (a b : List SinkCall) :
    countReplyStarts (a ++ b) = countReplyStarts a + countReplyStarts b := by
  simp [countReplyStarts, List.filter_append]

theorem countRouteReplyCalls_append (a b : List SinkCall) :
    countRouteReplyCalls (a ++ b) =
      countRouteReplyCalls a + countRouteReplyCalls b := by
  simp [countRouteReplyCalls, List.filter_append]

theorem countEditCalls_append (a b : List SinkCall) :
    countEditCalls (a ++ b) = countEditCalls a + countEditCalls b := by
  simp [countEditCalls, List.filter_append]

theorem editCallsOf_append (a b : List SinkCall) :
    editCallsOf (a ++ b) = editCallsOf a ++ editCallsOf b := by
  simp [editCallsOf]

theorem startReplyLifecycleOnce_started (st : AcpDispatchDeliveryState) :
    (startReplyLifecycleOnce st).1.startedReplyLifecycle = true := by
  unfold startReplyLifecycleOnce
  split <;> simp_all

theorem startReplyLifecycleOnce_frame (st : AcpDispatchDeliveryState) :
    (startReplyLifecycleOnce st).1.accumulatedBlockText =
        st.accumulatedBlockText ∧
      (startReplyLifecycleOnce st).1.blockCount = st.blockCount ∧
      (startReplyLifecycleOnce st).1.routedCounts = st.routedCounts ∧
      (startReplyLifecycleOnce st).1.toolMessageByCallId =
        st.toolMessageByCallId := by
  unfold startReplyLifecycleOnce
  split <;> simp

theorem startReplyLifecycleOnce_count (st : AcpDispatchDeliveryState) :
    countReplyStarts (startReplyLifecycleOnce st).2 =
      if st.startedReplyLifecycle then 0 else 1 := by
  unfold startReplyLifecycleOnce
  split <;> simp_all [countReplyStarts, isReplyStart]

theorem tryEditToolMessage_frame (P : CoordinatorParams) (O : SinkOracles)
    (st : AcpDispatchDeliveryState) (p : ReplyPayload) (t : String) :
    (tryEditToolMessage P O st p t).2.1.startedReplyLifecycle =
        st.startedReplyLifecycle ∧
      (tryEditToolMessage P O st p t).2.1.accumulatedBlockText =
        st.accumulatedBlockText ∧
      (tryEditToolMessage P O st p t).2.1.blockCount = st.blockCount ∧
      (tryEditToolMessage P O st p t).2.1.toolMessageByCallId =
        st.toolMessageByCallId ∧
      countReplyStarts (tryEditToolMessage P O st p t).2.2 = 0 ∧
      countRouteReplyCalls (tryEditToolMessage P O st p t).2.2 = 0 := by
  unfold tryEditToolMessage
  split
  · simp [countReplyStarts, countRouteReplyCalls]
  · split
    · simp [countReplyStarts, countRouteReplyCalls]
    · split
      · simp [countReplyStarts, countRouteReplyCalls]
      · dsimp only
        split
        · simp [countReplyStarts, countRouteReplyCalls]
        · split <;>
            simp [countReplyStarts, countRouteReplyCalls, isReplyStart,
              isRouteReplyCall]

theorem deliverRoutedSend_frame (P : CoordinatorParams) (O : SinkOracles)
    (st : AcpDispatchDeliveryState) (kind : ReplyDispatchKind)
    (tp : ReplyPayload) (meta : Option AcpDispatchDeliveryMeta) :
    (deliverRoutedSend P O st kind tp meta).2.1.startedReplyLifecycle =
        st.startedReplyLifecycle ∧
      (deliverRoutedSend P O st kind tp meta).2.1.accumulatedBlockText =
        st.accumulatedBlockText ∧
      (deliverRoutedSend P O st kind tp meta).2.1.blockCount = st.blockCount ∧
      countReplyStarts (deliverRoutedSend P O st kind tp meta).2.2 = 0 ∧
      countRouteReplyCalls (deliverRoutedSend P O st kind tp meta).2.2 = 1 ∧
      countEditCalls (deliverRoutedSend P O st kind tp meta).2.2 = 0 := by
  unfold deliverRoutedSend
  dsimp only
  split
  · simp [countReplyStarts, countRouteReplyCalls, countEditCalls,
      isReplyStart, isRouteReplyCall, isEditCall]
  · split
    · simp [countReplyStarts, countRouteReplyCalls, countEditCalls,
        isReplyStart, isRouteReplyCall, isEditCall]
    · dsimp only
      split <;>
        simp [countReplyStarts, countRouteReplyCalls, countEditCalls,
          isReplyStart, isRouteReplyCall, isEditCall]

theorem deliverRouted_frame (P : CoordinatorParams) (O : SinkOracles)
    (st : AcpDispatchDeliveryState) (kind : ReplyDispatchKind)
    (tp : ReplyPayload) (meta : Option AcpDispatchDeliveryMeta) :
    (deliverRouted P O st kind tp meta).2.1.startedReplyLifecycle =
        st.startedReplyLifecycle ∧
      (deliverRouted P O st kind tp meta).2.1.accumulatedBlockText =
        st.accumulatedBlockText ∧
      (deliverRouted P O st kind tp meta).2.1.blockCount = st.blockCount ∧
      countReplyStarts (deliverRouted P O st kind tp meta).2.2 = 0 := by
  unfold deliverRouted
  dsimp only
  split
  · split
    · have h := tryEditToolMessage_frame P O st tp
        (((meta.bind fun m => m.toolCallId).map jsTrim).getD "")
      simp_all
    · have h := tryEditToolMessage_frame P O st tp
        (((meta.bind fun m => m.toolCallId).map jsTrim).getD "")
      have h2 := deliverRoutedSend_frame P O
        (tryEditToolMessage P O st tp
          (((meta.bind fun m => m.toolCallId).map jsTrim).getD "")).2.1
        kind tp meta
      simp_all [countReplyStarts_append]
  · have h2 := deliverRoutedSend_frame P O st kind tp meta
    simp_all

theorem deliverDirect_frame (O : SinkOracles)
    (st : AcpDispatchDeliveryState) (kind : ReplyDispatchKind)
    (tp : ReplyPayload) :
    (deliverDirect O st kind tp).2.1 = st ∧
      countReplyStarts (deliverDirect O st kind tp).2.2 = 0 ∧
      countRouteReplyCalls (deliverDirect O st kind tp).2.2 = 0 ∧
      countEditCalls (deliverDirect O st kind tp).2.2 = 0 := by
  unfold deliverDirect
  cases kind
  all_goals
    dsimp only
    split <;>
      simp [countReplyStarts, countRouteReplyCalls, countEditCalls,
        isReplyStart, isRouteReplyCall, isEditCall]

theorem deliverAccumulate_frame (st : AcpDispatchDeliveryState)
    (kind : ReplyDispatchKind) (payload : ReplyPayload) :
    (deliverAccumulate st kind payload).startedReplyLifecycle =
        st.startedReplyLifecycle ∧
      (deliverAccumulate st kind payload).routedCounts = st.routedCounts ∧
      (deliverAccumulate st kind payload).toolMessageByCallId =
        st.toolMessageByCallId := by
  unfold deliverAccumulate
  split <;> simp

theorem deliverLifecycle_started (st : AcpDispatchDeliveryState)
    (payload : ReplyPayload) :
    (deliverLifecycle st payload).1.startedReplyLifecycle =
      (st.startedReplyLifecycle || hasVisibleContent payload) := by
  unfold deliverLifecycle
  split <;> simp_all [startReplyLifecycleOnce_started]

theorem deliverLifecycle_frame (st : AcpDispatchDeliveryState)
    (payload : ReplyPayload) :
    (deliverLifecycle st payload).1.accumulatedBlockText =
        st.accumulatedBlockText ∧
      (deliverLifecycle st payload).1.blockCount = st.blockCount ∧
      (deliverLifecycle st payload).1.routedCounts = st.routedCounts ∧
      (deliverLifecycle st payload).1.toolMessageByCallId =
        st.toolMessageByCallId := by
  unfold deliverLifecycle
  split <;> simp [startReplyLifecycleOnce_frame]

theorem deliverLifecycle_count (st : AcpDispatchDeliveryState)
    (payload : ReplyPayload) :
    countReplyStarts (deliverLifecycle st payload).2 =
      if hasVisibleContent payload && !st.startedReplyLifecycle then 1
      else 0 := by
  unfold deliverLifecycle
  split
  · rw [startReplyLifecycleOnce_count]
    cases h : st.startedReplyLifecycle <;> simp_all
  · simp_all [countReplyStarts]


theorem deliverDirect_result (O : SinkOracles)
    (st : AcpDispatchDeliveryState) (kind : ReplyDispatchKind)
    (tp : ReplyPayload) :
    (deliverDirect O st kind tp).1 = directSinkResult O kind tp := by
  unfold deliverDirect directSinkResult
  cases kind
  all_goals
    dsimp only
    split <;> simp_all

theorem deliver_started (P : CoordinatorParams) (O : SinkOracles)
    (st : AcpDispatchDeliveryState) (kind : ReplyDispatchKind)
    (payload : ReplyPayload) (meta : Option AcpDispatchDeliveryMeta) :
    (deliver P O st kind payload meta).2.1.startedReplyLifecycle =
      (st.startedReplyLifecycle || hasVisibleContent payload) := by
  have h1 : (deliverLifecycle (deliverAccumulate st kind payload)
        payload).1.startedReplyLifecycle =
      (st.startedReplyLifecycle || hasVisibleContent payload) := by
    rw [deliverLifecycle_started, (deliverAccumulate_frame st kind payload).1]
  unfold deliver
  dsimp only
  split
  · exact h1
  next tp htp =>
    split
    · have h := deliverRouted_frame P O
        (deliverLifecycle (deliverAccumulate st kind payload) payload).1
        kind tp meta
      dsimp only
      rw [h.1, h1]
    · have h := deliverDirect_frame O
        (deliverLifecycle (deliverAccumulate st kind payload) payload).1
        kind tp
      dsimp only
      rw [h.1, h1]

theorem deliver_replyStartCount (P : CoordinatorParams) (O : SinkOracles)
    (st : AcpDispatchDeliveryState) (kind : ReplyDispatchKind)
    (payload : ReplyPayload) (meta : Option AcpDispatchDeliveryMeta) :
    countReplyStarts (deliver P O st kind payload meta).2.2 =
      if hasVisibleContent payload && !st.startedReplyLifecycle then 1
      else 0 := by
  have h1 : countReplyStarts
        (deliverLifecycle (deliverAccumulate st kind payload) payload).2 =
      if hasVisibleContent payload && !st.startedReplyLifecycle then 1
      else 0 := by
    rw [deliverLifecycle_count, (deliverAccumulate_frame st kind payload).1]
  unfold deliver
  dsimp only
  split
  · exact h1
  next tp htp =>
    split
    · have h := deliverRouted_frame P O
        (deliverLifecycle (deliverAccumulate st kind payload) payload).1
        kind tp meta
      dsimp only
      rw [countReplyStarts_append, h.2.2.2, h1]
      exact Nat.add_zero _
    · have h := deliverDirect_frame O
        (deliverLifecycle (deliverAccumulate st kind payload) payload).1
        kind tp
      dsimp only
      rw [countReplyStarts_append, h.2.1, h1]
      exact Nat.add_zero _

theorem deliver_accum (P : CoordinatorParams) (O : SinkOracles)
    (st : AcpDispatchDeliveryState) (kind : ReplyDispatchKind)
    (payload : ReplyPayload) (meta : Option AcpDispatchDeliveryMeta) :
    (deliver P O st kind payload meta).2.1.accumulatedBlockText =
        (deliverAccumulate st kind payload).accumulatedBlockText ∧
      (deliver P O st kind payload meta).2.1.blockCount =
        (deliverAccumulate st kind payload).blockCount := by
  have h1 := deliverLifecycle_frame (deliverAccumulate st kind payload) payload
  unfold deliver
  dsimp only
  split
  · exact ⟨h1.1, h1.2.1⟩
  next tp htp =>
    split
    · have h := deliverRouted_frame P O
        (deliverLifecycle (deliverAccumulate st kind payload) payload).1
        kind tp meta
      dsimp only
      rw [h.2.1, h.2.2.1, h1.1, h1.2.1]
      exact ⟨rfl, rfl⟩
    · have h := deliverDirect_frame O
        (deliverLifecycle (deliverAccumulate st kind payload) payload).1
        kind tp
      dsimp only
      rw [h.1, h1.1, h1.2.1]
      exact ⟨rfl, rfl⟩

theorem deliver_direct_mode (P : CoordinatorParams) (O : SinkOracles)
    (st : AcpDispatchDeliveryState) (kind : ReplyDispatchKind)
    (payload : ReplyPayload) (meta : Option AcpDispatchDeliveryMeta)
    (hdm : (P.shouldRouteToOriginating && optStrTruthy P.originatingChannel
      && optStrTruthy P.originatingTo) = false) :
    (deliver P O st kind payload meta).2.1.routedCounts = st.routedCounts ∧
      (deliver P O st kind payload meta).2.1.toolMessageByCallId =
        st.toolMessageByCallId ∧
      countRouteReplyCalls (deliver P O st kind payload meta).2.2 = 0 ∧
      countEditCalls (deliver P O st kind payload meta).2.2 = 0 ∧
      ∀ tp, O.tts payload = Except.ok tp →
        (deliver P O st kind payload meta).1 = directSinkResult O kind tp := by
  have hacc := deliverAccumulate_frame st kind payload
  have hlif := deliverLifecycle_frame (deliverAccumulate st kind payload) payload
  have hlift : ∀ c ∈ (deliverLifecycle (deliverAccumulate st kind payload)
      payload).2, isRouteReplyCall c = false ∧ isEditCall c = false := by
    unfold deliverLifecycle startReplyLifecycleOnce
    split
    · split <;> simp [isRouteReplyCall, isEditCall]
    · simp
  have hdir := deliverDirect_frame O
    (deliverLifecycle (deliverAccumulate st kind payload) payload).1 kind
  unfold deliver
  dsimp only
  split
  next e he =>
    refine ⟨?_, ?_, ?_, ?_, ?_⟩
    · rw [hlif.2.2.1, hacc.2.1]
    · rw [hlif.2.2.2, hacc.2.2]
    · simp only [countRouteReplyCalls, List.length_eq_zero,
        List.filter_eq_nil_iff]
      intro c hc
      simp [(hlift c hc).1]
    · simp only [countEditCalls, List.length_eq_zero, List.filter_eq_nil_iff]
      intro c hc
      simp [(hlift c hc).2]
    · intro tp htp
      rw [he] at htp
      exact absurd htp (by simp)
  next tp htp =>
    split
    next hroute =>
      rw [hdm] at hroute
      exact absurd hroute (by simp)
    next hroute =>
      dsimp only
      refine ⟨?_, ?_, ?_, ?_, ?_⟩
      · rw [(hdir tp).1, hlif.2.2.1, hacc.2.1]
      · rw [(hdir tp).1, hlif.2.2.2, hacc.2.2]
      · rw [countRouteReplyCalls_append, (hdir tp).2.2.1]
        simp only [countRouteReplyCalls, List.length_eq_zero,
          List.filter_eq_nil_iff, Nat.add_zero]
        intro c hc
        simp [(hlift c hc).1]
      · rw [countEditCalls_append, (hdir tp).2.2.2]
        simp only [countEditCalls, List.length_eq_zero,
          List.filter_eq_nil_iff, Nat.add_zero]
        intro c hc
        simp [(hlift c hc).2]
      · intro tp2 htp2
        rw [deliverDirect_result]
        rw [htp] at htp2
        cases htp2
        rfl

theorem runCalls_append (P : CoordinatorParams) (O : SinkOracles)
    (a b : List CoordCall) : ∀ st : AcpDispatchDeliveryState,
    (runCalls P O st (a ++ b)).1 = (runCalls P O (runCalls P O st a).1 b).1 ∧
      (runCalls P O st (a ++ b)).2 =
        (runCalls P O st a).2 ++ (runCalls P O (runCalls P O st a).1 b).2 := by
  induction a with
  | nil => intro st; simp [runCalls]
  | cons c rest ih =>
    intro st
    cases c with
    | start =>
      simp only [List.cons_append, runCalls]
      rw [show rest.append b = rest ++ b from rfl, (ih _).1, (ih _).2,
        List.append_assoc]
      exact ⟨rfl, rfl⟩
    | deliverCall k p m =>
      simp only [List.cons_append, runCalls]
      rw [show rest.append b = rest ++ b from rfl, (ih _).1, (ih _).2,
        List.append_assoc]
      exact ⟨rfl, rfl⟩

theorem runCalls_started (P : CoordinatorParams) (O : SinkOracles)
    (calls : List CoordCall) : ∀ st : AcpDispatchDeliveryState,
    (runCalls P O st calls).1.startedReplyLifecycle =
      (st.startedReplyLifecycle || calls.any triggersLifecycle) := by
  induction calls with
  | nil => intro st; simp [runCalls]
  | cons c rest ih =>
    intro st
    cases c with
    | start =>
      simp only [runCalls, List.any_cons, triggersLifecycle]
      rw [ih, startReplyLifecycleOnce_started]
      simp
    | deliverCall k p m =>
      simp only [runCalls, List.any_cons, triggersLifecycle]
      rw [ih, deliver_started]
      cases st.startedReplyLifecycle <;> cases hasVisibleContent p <;> simp

theorem runCalls_replyStartCount (P : CoordinatorParams) (O : SinkOracles)
    (calls : List CoordCall) : ∀ st : AcpDispatchDeliveryState,
    countReplyStarts (runCalls P O st calls).2 =
      if calls.any triggersLifecycle && !st.startedReplyLifecycle then 1
      else 0 := by
  induction calls with
  | nil => intro st; simp [runCalls, countReplyStarts]
  | cons c rest ih =>
    intro st
    cases c with
    | start =>
      simp only [runCalls, List.any_cons, triggersLifecycle]
      rw [countReplyStarts_append, ih, startReplyLifecycleOnce_count,
        startReplyLifecycleOnce_started]
      cases h : st.startedReplyLifecycle <;> simp
    | deliverCall k p m =>
      simp only [runCalls, List.any_cons, triggersLifecycle]
      rw [countReplyStarts_append, ih, deliver_replyStartCount, deliver_started]
      by_cases hv : hasVisibleContent p = true <;>
        by_cases hs : st.startedReplyLifecycle = true <;>
        by_cases ha : rest.any triggersLifecycle = true <;>
        simp_all

theorem runCalls_direct_counts (P : CoordinatorParams) (O : SinkOracles)
    (hdm : (P.shouldRouteToOriginating && optStrTruthy P.originatingChannel
      && optStrTruthy P.originatingTo) = false) (calls : List CoordCall) :
    ∀ st : AcpDispatchDeliveryState,
    (runCalls P O st calls).1.routedCounts = st.routedCounts := by
  induction calls with
  | nil => intro st; simp [runCalls]
  | cons c rest ih =>
    intro st
    cases c with
    | start =>
      simp only [runCalls]
      rw [ih, (startReplyLifecycleOnce_frame st).2.2.1]
    | deliverCall k p m =>
      simp only [runCalls]
      rw [ih, (deliver_direct_mode P O st k p m hdm).1]

/-! ## Helper lemmas -/

theorem deliverAccumulate_ws (st : AcpDispatchDeliveryState)
    (kind : ReplyDispatchKind) (p : ReplyPayload)
    (h : payloadTrimmedText p = "") :
    deliverAccumulate st kind p = st := by
  unfold deliverAccumulate
  rw [h]
  simp [strTruthy]

theorem deliverAccumulate_block (st : AcpDispatchDeliveryState)
    (p : ReplyPayload) (h : payloadTrimmedText p ≠ "") :
    deliverAccumulate st ReplyDispatchKind.block p =
      { st with
        accumulatedBlockText :=
          (if st.accumulatedBlockText.length > 0 then
            st.accumulatedBlockText ++ "\n"
          else st.accumulatedBlockText) ++ p.text.getD ""
        blockCount := st.blockCount + 1 } := by
  unfold deliverAccumulate
  simp [strTruthy, h]

theorem deliverLifecycle_trace (st : AcpDispatchDeliveryState)
    (p : ReplyPayload) :
    countRouteReplyCalls (deliverLifecycle st p).2 = 0 ∧
      countEditCalls (deliverLifecycle st p).2 = 0 ∧
      editCallsOf (deliverLifecycle st p).2 = [] := by
  unfold deliverLifecycle startReplyLifecycleOnce
  split
  · split <;>
      simp [countRouteReplyCalls, countEditCalls, editCallsOf,
        isRouteReplyCall, isEditCall]
  · simp [countRouteReplyCalls, countEditCalls, editCallsOf]

theorem deliver_tool_create (P : CoordinatorParams) (O : SinkOracles)
    (st : AcpDispatchDeliveryState) (tcid m t1 : String)
    (hcfg : (P.shouldRouteToOriginating && optStrTruthy P.originatingChannel
      && optStrTruthy P.originatingTo) = true)
    (hntc : tcid ≠ "") (hm : m ≠ "")
    (htts : ∀ p, O.tts p = Except.ok p)
    (hrr : ∀ a, O.routeReply a = Except.ok ⟨true, some m, none⟩) :
    (deliver P O st ReplyDispatchKind.tool ⟨some t1, none, none⟩
        (some ⟨some tcid, none⟩)).1 = Except.ok true ∧
      (deliver P O st ReplyDispatchKind.tool ⟨some t1, none, none⟩
        (some ⟨some tcid, none⟩)).2.1.toolMessageByCallId =
        mapSet st.toolMessageByCallId tcid
          ⟨P.originatingChannel.getD "", P.accountId, P.originatingTo.getD "",
            P.messageThreadId, m⟩ := by
  have ha := deliverAccumulate_frame st ReplyDispatchKind.tool
    ⟨some t1, none, none⟩
  have hl := deliverLifecycle_frame
    (deliverAccumulate st ReplyDispatchKind.tool ⟨some t1, none, none⟩)
    ⟨some t1, none, none⟩
  unfold deliver
  dsimp only
  rw [htts]
  dsimp only
  split
  case isFalse hcond => exact absurd hcfg hcond
  case isTrue hcond =>
    unfold deliverRouted
    dsimp only
    split
    case isTrue hedit =>
      simp at hedit
    case isFalse hedit =>
      unfold deliverRoutedSend
      dsimp only
      rw [hrr]
      dsimp only
      split
      case isTrue hok => simp at hok
      case isFalse hok =>
        dsimp only
        split
        case isTrue hrec =>
          refine ⟨rfl, ?_⟩
          dsimp only
          rw [hl.2.2.2, ha.2.2]
          rfl
        case isFalse hrec =>
          exfalso
          apply hrec
          simp [optStrTruthy, strTruthy, hntc, hm]

theorem tryEdit_success_eval (P : CoordinatorParams) (O : SinkOracles)
    (st : AcpDispatchDeliveryState) (tp : ReplyPayload) (tcid : String)
    (handle : ToolMessageHandle)
    (hcfg : (P.shouldRouteToOriginating && optStrTruthy P.originatingChannel
      && optStrTruthy P.originatingTo) = true)
    (hlookup : mapGet st.toolMessageByCallId tcid = some handle)
    (hmne : handle.messageId ≠ "")
    (htp : payloadTrimmedText tp ≠ "")
    (hma : ∀ a, O.runMessageAction a = Except.ok ()) :
    tryEditToolMessage P O st tp tcid =
      (true,
        { st with routedCounts :=
            st.routedCounts.incr ReplyDispatchKind.tool },
        [SinkCall.messageActionEdit
          ⟨handle.channel, handle.accountId, handle.«to», handle.threadId,
            handle.messageId, payloadTrimmedText tp⟩]) := by
  unfold tryEditToolMessage
  split
  case isTrue h => rw [hcfg] at h; simp at h
  case isFalse h =>
    split
    case h_1 hnone => rw [hlookup] at hnone; simp at hnone
    case h_2 handle2 heq =>
      rw [hlookup] at heq
      injection heq with heq2
      subst heq2
      split
      case isTrue h2 => exact absurd h2 hmne
      case isFalse h2 =>
        dsimp only
        split
        case isTrue h3 => exact absurd h3 htp
        case isFalse h3 =>
          rw [hma]

theorem tryEdit_throw_eval (P : CoordinatorParams) (O : SinkOracles)
    (st : AcpDispatchDeliveryState) (tp : ReplyPayload) (tcid : String)
    (handle : ToolMessageHandle) (e : String)
    (hcfg : (P.shouldRouteToOriginating && optStrTruthy P.originatingChannel
      && optStrTruthy P.originatingTo) = true)
    (hlookup : mapGet st.toolMessageByCallId tcid = some handle)
    (hmne : handle.messageId ≠ "")
    (htp : payloadTrimmedText tp ≠ "")
    (hma : ∀ a, O.runMessageAction a = Except.error e) :
    tryEditToolMessage P O st tp tcid =
      (false, st,
        [SinkCall.messageActionEdit
          ⟨handle.channel, handle.accountId, handle.«to», handle.threadId,
            handle.messageId, payloadTrimmedText tp⟩]) := by
  unfold tryEditToolMessage
  split
  case isTrue h => rw [hcfg] at h; simp at h
  case isFalse h =>
    split
    case h_1 hnone => rw [hlookup] at hnone; simp at hnone
    case h_2 handle2 heq =>
      rw [hlookup] at heq
      injection heq with heq2
      subst heq2
      split
      case isTrue h2 => exact absurd h2 hmne
      case isFalse h2 =>
        dsimp only
        split
        case isTrue h3 => exact absurd h3 htp
        case isFalse h3 =>
          rw [hma]

theorem deliver_tool_edit_success (P : CoordinatorParams) (O : SinkOracles)
    (st : AcpDispatchDeliveryState) (tcid t2 : String)
    (handle : ToolMessageHandle)
    (hcfg : (P.shouldRouteToOriginating && optStrTruthy P.originatingChannel
      && optStrTruthy P.originatingTo) = true)
    (htcid : jsTrim tcid = tcid) (hntc : tcid ≠ "")
    (hlookup : mapGet st.toolMessageByCallId tcid = some handle)
    (hmne : handle.messageId ≠ "")
    (ht2 : jsTrim t2 ≠ "")
    (htts : ∀ p, O.tts p = Except.ok p)
    (hma : ∀ a, O.runMessageAction a = Except.ok ()) :
    (deliver P O st ReplyDispatchKind.tool ⟨some t2, none, none⟩
        (some ⟨some tcid, some true⟩)).1 = Except.ok true ∧
      countRouteReplyCalls (deliver P O st ReplyDispatchKind.tool
        ⟨some t2, none, none⟩ (some ⟨some tcid, some true⟩)).2.2 = 0 ∧
      editCallsOf (deliver P O st ReplyDispatchKind.tool
        ⟨some t2, none, none⟩ (some ⟨some tcid, some true⟩)).2.2 =
        [⟨handle.channel, handle.accountId, handle.«to», handle.threadId,
          handle.messageId, jsTrim t2⟩] ∧
      (deliver P O st ReplyDispatchKind.tool ⟨some t2, none, none⟩
        (some ⟨some tcid, some true⟩)).2.1.routedCounts.tool =
        st.routedCounts.tool + 1 := by
  have ha := deliverAccumulate_frame st ReplyDispatchKind.tool
    ⟨some t2, none, none⟩
  have hl := deliverLifecycle_frame
    (deliverAccumulate st ReplyDispatchKind.tool ⟨some t2, none, none⟩)
    ⟨some t2, none, none⟩
  have hlt := deliverLifecycle_trace
    (deliverAccumulate st ReplyDispatchKind.tool ⟨some t2, none, none⟩)
    ⟨some t2, none, none⟩
  have hlookup1 : mapGet (deliverLifecycle
      (deliverAccumulate st ReplyDispatchKind.tool ⟨some t2, none, none⟩)
      ⟨some t2, none, none⟩).1.toolMessageByCallId tcid = some handle := by
    rw [hl.2.2.2, ha.2.2]
    exact hlookup
  have ht2p : payloadTrimmedText
      (⟨some t2, none, none⟩ : ReplyPayload) ≠ "" := ht2
  unfold deliver
  dsimp only
  rw [htts]
  dsimp only
  split
  case isFalse hc => exact absurd hcfg hc
  case isTrue hc =>
    unfold deliverRouted
    dsimp only
    split
    case isFalse hedit =>
      exfalso
      apply hedit
      simp [optStrTruthy, strTruthy, htcid, hntc]
    case isTrue hedit =>
      have harg : (((some (⟨some tcid, some true⟩ :
          AcpDispatchDeliveryMeta)).bind fun m => m.toolCallId).map
            jsTrim).getD "" = tcid := by
        simp [htcid]
      rw [harg, tryEdit_success_eval P O _ _ tcid handle hcfg hlookup1 hmne
        ht2p hma]
      dsimp only
      refine ⟨rfl, ?_, ?_, ?_⟩
      · rw [countRouteReplyCalls_append, hlt.1]
        simp [countRouteReplyCalls, isRouteReplyCall]
      · rw [editCallsOf_append, hlt.2.2]
        simp [editCallsOf, payloadTrimmedText]
      · simp [RoutedCounts.incr, hl.2.2.1, ha.2.1]

theorem deliver_tool_edit_fallback (P : CoordinatorParams) (O : SinkOracles)
    (st : AcpDispatchDeliveryState) (tcid t2 e m2 : String)
    (handle : ToolMessageHandle)
    (hcfg : (P.shouldRouteToOriginating && optStrTruthy P.originatingChannel
      && optStrTruthy P.originatingTo) = true)
    (htcid : jsTrim tcid = tcid) (hntc : tcid ≠ "")
    (hlookup : mapGet st.toolMessageByCallId tcid = some handle)
    (hmne : handle.messageId ≠ "")
    (ht2 : jsTrim t2 ≠ "")
    (htts : ∀ p, O.tts p = Except.ok p)
    (hma : ∀ a, O.runMessageAction a = Except.error e)
    (hrr : ∀ a, O.routeReply a = Except.ok ⟨true, some m2, none⟩) :
    (deliver P O st ReplyDispatchKind.tool ⟨some t2, none, none⟩
        (some ⟨some tcid, some true⟩)).1 = Except.ok true ∧
      countRouteReplyCalls (deliver P O st ReplyDispatchKind.tool
        ⟨some t2, none, none⟩ (some ⟨some tcid, some true⟩)).2.2 = 1 ∧
      countEditCalls (deliver P O st ReplyDispatchKind.tool
        ⟨some t2, none, none⟩ (some ⟨some tcid, some true⟩)).2.2 = 1 := by
  have ha := deliverAccumulate_frame st ReplyDispatchKind.tool
    ⟨some t2, none, none⟩
  have hl := deliverLifecycle_frame
    (deliverAccumulate st ReplyDispatchKind.tool ⟨some t2, none, none⟩)
    ⟨some t2, none, none⟩
  have hlt := deliverLifecycle_trace
    (deliverAccumulate st ReplyDispatchKind.tool ⟨some t2, none, none⟩)
    ⟨some t2, none, none⟩
  have hlookup1 : mapGet (deliverLifecycle
      (deliverAccumulate st ReplyDispatchKind.tool ⟨some t2, none, none⟩)
      ⟨some t2, none, none⟩).1.toolMessageByCallId tcid = some handle := by
    rw [hl.2.2.2, ha.2.2]
    exact hlookup
  have ht2p : payloadTrimmedText
      (⟨some t2, none, none⟩ : ReplyPayload) ≠ "" := ht2
  unfold deliver
  dsimp only
  rw [htts]
  dsimp only
  split
  case isFalse hc => exact absurd hcfg hc
  case isTrue hc =>
    unfold deliverRouted
    dsimp only
    split
    case isFalse hedit =>
      exfalso
      apply hedit
      simp [optStrTruthy, strTruthy, htcid, hntc]
    case isTrue hedit =>
      have harg : (((some (⟨some tcid, some true⟩ :
          AcpDispatchDeliveryMeta)).bind fun m => m.toolCallId).map
            jsTrim).getD "" = tcid := by
        simp [htcid]
      rw [harg, tryEdit_throw_eval P O _ _ tcid handle e hcfg hlookup1 hmne
        ht2p hma]
      dsimp only
      split
      case isTrue hfalse => simp at hfalse
      case isFalse hfalse =>
        unfold deliverRoutedSend
        dsimp only
        rw [hrr]
        dsimp only
        split
        case isTrue hok => simp at hok
        case isFalse hok =>
          dsimp only
          refine ⟨rfl, ?_, ?_⟩
          · rw [countRouteReplyCalls_append, hlt.1]
            simp [countRouteReplyCalls, isRouteReplyCall, isEditCall]
          · rw [countEditCalls_append, hlt.2.1]
            simp [countEditCalls, isEditCall]

theorem mapSet_cons_ne (kv : String × ToolMessageHandle)
    (rest : List (String × ToolMessageHandle)) (k : String)
    (v : ToolMessageHandle) (hk : ¬kv.1 = k) :
    mapSet (kv :: rest) k v = kv :: mapSet rest k v := by
  unfold mapSet
  by_cases h : (rest.any fun x => x.1 = k) = true
  · rw [if_pos (by simp [List.any_cons, h]), if_pos h]
    simp [hk]
  · rw [if_neg (by simp [List.any_cons, hk, h]), if_neg h]
    simp

theorem mapGet_mapSet (mp : List (String × ToolMessageHandle)) (k : String)
    (v : ToolMessageHandle) : mapGet (mapSet mp k v) k = some v := by
  induction mp with
  | nil => simp [mapGet, mapSet]
  | cons kv rest ih =>
    by_cases hk : kv.1 = k
    · unfold mapSet
      rw [if_pos (by simp [List.any_cons, hk])]
      unfold mapGet
      simp only [List.map_cons, if_pos hk, List.find?]
      simp
    · rw [mapSet_cons_ne kv rest k v hk]
      unfold mapGet at ih ⊢
      rw [List.find?_cons_of_neg _ (by simp [hk])]
      exact ih

theorem deliverRoutedSend_result_ok (P : CoordinatorParams) (O : SinkOracles)
    (st : AcpDispatchDeliveryState) (kind : ReplyDispatchKind)
    (tp : ReplyPayload) (meta : Option AcpDispatchDeliveryMeta)
    (hr : ∀ a, ∃ r, O.routeReply a = Except.ok r) :
    ∃ b, (deliverRoutedSend P O st kind tp meta).1 = Except.ok b := by
  unfold deliverRoutedSend
  dsimp only
  obtain ⟨r, hra⟩ := hr _
  rw [hra]
  dsimp only
  split
  · exact ⟨false, rfl⟩
  · exact ⟨true, rfl⟩

theorem deliverRouted_result_ok (P : CoordinatorParams) (O : SinkOracles)
    (st : AcpDispatchDeliveryState) (kind : ReplyDispatchKind)
    (tp : ReplyPayload) (meta : Option AcpDispatchDeliveryMeta)
    (hr : ∀ a, ∃ r, O.routeReply a = Except.ok r) :
    ∃ b, (deliverRouted P O st kind tp meta).1 = Except.ok b := by
  unfold deliverRouted
  dsimp only
  split
  · split
    · exact ⟨true, rfl⟩
    · exact deliverRoutedSend_result_ok P O _ kind tp meta hr
  · exact deliverRoutedSend_result_ok P O st kind tp meta hr

/-! ## Claim theorems -/

/-- C1: with routing to an originating channel configured, after a prior
tool delivery for a tool call id succeeded and recorded a message handle
with message id `m`, a second tool delivery with the same id,
`meta.allowEdit = true` and non-whitespace text invokes the edit
message-action exactly once with that recorded message id, does not call
the route-reply sink, returns true, and increments the tool counter
exactly once for that call. -/
theorem C1_edit_before_send (P : CoordinatorParams) (O : SinkOracles)
    (tcid m t1 t2 : String)
    (hcfg : (P.shouldRouteToOriginating && optStrTruthy P.originatingChannel
      && optStrTruthy P.originatingTo) = true)
    (htcid : jsTrim tcid = tcid) (hntc : tcid ≠ "") (hm : m ≠ "")
    (ht2 : jsTrim t2 ≠ "")
    (htts : ∀ p, O.tts p = Except.ok p)
    (hrr : ∀ a, O.routeReply a = Except.ok ⟨true, some m, none⟩)
    (hma : ∀ a, O.runMessageAction a = Except.ok ()) :
    (deliver P O initialDeliveryState ReplyDispatchKind.tool
        ⟨some t1, none, none⟩ (some ⟨some tcid, none⟩)).1 = Except.ok true ∧
      (∃ handle, mapGet (deliver P O initialDeliveryState
          ReplyDispatchKind.tool ⟨some t1, none, none⟩
          (some ⟨some tcid, none⟩)).2.1.toolMessageByCallId tcid =
            some handle ∧ handle.messageId = m) ∧
      (deliver P O (deliver P O initialDeliveryState ReplyDispatchKind.tool
          ⟨some t1, none, none⟩ (some ⟨some tcid, none⟩)).2.1
        ReplyDispatchKind.tool ⟨some t2, none, none⟩
        (some ⟨some tcid, some true⟩)).1 = Except.ok true ∧
      countRouteReplyCalls (deliver P O (deliver P O initialDeliveryState
          ReplyDispatchKind.tool ⟨some t1, none, none⟩
          (some ⟨some tcid, none⟩)).2.1
        ReplyDispatchKind.tool ⟨some t2, none, none⟩
        (some ⟨some tcid, some true⟩)).2.2 = 0 ∧
      (∃ args : EditParams, editCallsOf (deliver P O
          (deliver P O initialDeliveryState ReplyDispatchKind.tool
            ⟨some t1, none, none⟩ (some ⟨some tcid, none⟩)).2.1
          ReplyDispatchKind.tool ⟨some t2, none, none⟩
          (some ⟨some tcid, some true⟩)).2.2 = [args] ∧
        args.messageId = m ∧ args.message = jsTrim t2) ∧
      (deliver P O (deliver P O initialDeliveryState ReplyDispatchKind.tool
          ⟨some t1, none, none⟩ (some ⟨some tcid, none⟩)).2.1
        ReplyDispatchKind.tool ⟨some t2, none, none⟩
        (some ⟨some tcid, some true⟩)).2.1.routedCounts.tool =
        (deliver P O initialDeliveryState ReplyDispatchKind.tool
          ⟨some t1, none, none⟩
          (some ⟨some tcid, none⟩)).2.1.routedCounts.tool + 1 := by
  have hcreate := deliver_tool_create P O initialDeliveryState tcid m t1
    hcfg hntc hm htts hrr
  have hlook : mapGet (deliver P O initialDeliveryState
      ReplyDispatchKind.tool ⟨some t1, none, none⟩
      (some ⟨some tcid, none⟩)).2.1.toolMessageByCallId tcid =
      some ⟨P.originatingChannel.getD "", P.accountId,
        P.originatingTo.getD "", P.messageThreadId, m⟩ := by
    rw [hcreate.2]
    exact mapGet_mapSet _ _ _
  have hsucc := deliver_tool_edit_success P O
    (deliver P O initialDeliveryState ReplyDispatchKind.tool
      ⟨some t1, none, none⟩ (some ⟨some tcid, none⟩)).2.1
    tcid t2
    ⟨P.originatingChannel.getD "", P.accountId, P.originatingTo.getD "",
      P.messageThreadId, m⟩
    hcfg htcid hntc hlook hm ht2 htts hma
  refine ⟨hcreate.1, ⟨_, hlook, rfl⟩, hsucc.1, hsucc.2.1, ⟨_, hsucc.2.2.1,
    rfl, rfl⟩, hsucc.2.2.2⟩

/-- C2 counterexample: in the concrete edit-failure scenario the second
`deliver` returns true (not false) and itself performs the fallback
route-reply call, refuting the claim that the coordinator returns false
and that a second controller-issued `deliver` performs the fallback. -/
theorem C2_edit_fallback_counterexample :
    (deliver routedParams oraclesEditThrows
        (deliver routedParams oraclesEditThrows initialDeliveryState
          ReplyDispatchKind.tool
          ⟨some "Run command (in_progress)", none, none⟩
          (some ⟨some "call-2", none⟩)).2.1
        ReplyDispatchKind.tool ⟨some "Run command (completed)", none, none⟩
        (some ⟨some "call-2", some true⟩)).1 = Except.ok true ∧
      countRouteReplyCalls (deliver routedParams oraclesEditThrows
        (deliver routedParams oraclesEditThrows initialDeliveryState
          ReplyDispatchKind.tool
          ⟨some "Run command (in_progress)", none, none⟩
          (some ⟨some "call-2", none⟩)).2.1
        ReplyDispatchKind.tool ⟨some "Run command (completed)", none, none⟩
        (some ⟨some "call-2", some true⟩)).2.2 = 1 ∧
      countEditCalls (deliver routedParams oraclesEditThrows
        (deliver routedParams oraclesEditThrows initialDeliveryState
          ReplyDispatchKind.tool
          ⟨some "Run command (in_progress)", none, none⟩
          (some ⟨some "call-2", none⟩)).2.1
        ReplyDispatchKind.tool ⟨some "Run command (completed)", none, none⟩
        (some ⟨some "call-2", some true⟩)).2.2 = 1 := by
  decide

/-- C2 (amended): when the edit action throws on a tool delivery with
`meta.allowEdit = true` and a recorded handle, the failure is caught and
the coordinator itself falls back to sending a fresh message via
route-reply within the same `deliver` call, which returns true; overall
the edit action is attempted exactly once and route-reply is called
exactly once for that event. -/
theorem C2_edit_fallback_amended (P : CoordinatorParams) (O : SinkOracles)
    (tcid m t1 t2 e : String)
    (hcfg : (P.shouldRouteToOriginating && optStrTruthy P.originatingChannel
      && optStrTruthy P.originatingTo) = true)
    (htcid : jsTrim tcid = tcid) (hntc : tcid ≠ "") (hm : m ≠ "")
    (ht2 : jsTrim t2 ≠ "")
    (htts : ∀ p, O.tts p = Except.ok p)
    (hrr : ∀ a, O.routeReply a = Except.ok ⟨true, some m, none⟩)
    (hma : ∀ a, O.runMessageAction a = Except.error e) :
    (deliver P O (deliver P O initialDeliveryState ReplyDispatchKind.tool
        ⟨some t1, none, none⟩ (some ⟨some tcid, none⟩)).2.1
      ReplyDispatchKind.tool ⟨some t2, none, none⟩
      (some ⟨some tcid, some true⟩)).1 = Except.ok true ∧
      countEditCalls (deliver P O (deliver P O initialDeliveryState
          ReplyDispatchKind.tool ⟨some t1, none, none⟩
          (some ⟨some tcid, none⟩)).2.1
        ReplyDispatchKind.tool ⟨some t2, none, none⟩
        (some ⟨some tcid, some true⟩)).2.2 = 1 ∧
      countRouteReplyCalls (deliver P O (deliver P O initialDeliveryState
          ReplyDispatchKind.tool ⟨some t1, none, none⟩
          (some ⟨some tcid, none⟩)).2.1
        ReplyDispatchKind.tool ⟨some t2, none, none⟩
        (some ⟨some tcid, some true⟩)).2.2 = 1 := by
  have hcreate := deliver_tool_create P O initialDeliveryState tcid m t1
    hcfg hntc hm htts hrr
  have hlook : mapGet (deliver P O initialDeliveryState
      ReplyDispatchKind.tool ⟨some t1, none, none⟩
      (some ⟨some tcid, none⟩)).2.1.toolMessageByCallId tcid =
      some ⟨P.originatingChannel.getD "", P.accountId,
        P.originatingTo.getD "", P.messageThreadId, m⟩ := by
    rw [hcreate.2]
    exact mapGet_mapSet _ _ _
  have hfb := deliver_tool_edit_fallback P O
    (deliver P O initialDeliveryState ReplyDispatchKind.tool
      ⟨some t1, none, none⟩ (some ⟨some tcid, none⟩)).2.1
    tcid t2 e m
    ⟨P.originatingChannel.getD "", P.accountId, P.originatingTo.getD "",
      P.messageThreadId, m⟩
    hcfg htcid hntc hlook hm ht2 htts hma hrr
  exact ⟨hfb.1, hfb.2.2, hfb.2.1⟩

/-- C3: for every turn in which nothing is delivered with visible
content and `startReplyLifecycle` is never directly triggered, the
`onReplyStart` callback never fires; conversely it fires exactly once,
during the first delivery that carries visible content.  The turn driver
is modelled from the spec (the controller source is not among the
sources); the coordinator it drives is the one embedded from the source. -/
theorem C3_lifecycle_turn (P : CoordinatorParams) (O : SinkOracles)
    (deliveries : List (ReplyDispatchKind × ReplyPayload ×
      Option AcpDispatchDeliveryMeta)) :
    ((∀ d ∈ deliveries, hasVisibleContent d.2.1 = false) →
      countReplyStarts (controllerDeliverTurn P O deliveries).2 = 0) ∧
    ∀ pre d post, deliveries = pre ++ d :: post →
      (∀ x ∈ pre, hasVisibleContent x.2.1 = false) →
      hasVisibleContent d.2.1 = true →
      countReplyStarts (controllerDeliverTurn P O deliveries).2 = 1 ∧
      countReplyStarts (runCalls P O initialDeliveryState
        (pre.map fun x => CoordCall.deliverCall x.1 x.2.1 x.2.2)).2 = 0 ∧
      countReplyStarts (deliver P O
        (runCalls P O initialDeliveryState
          (pre.map fun x => CoordCall.deliverCall x.1 x.2.1 x.2.2)).1
        d.1 d.2.1 d.2.2).2.2 = 1 := by
  have hinit : initialDeliveryState.startedReplyLifecycle = false := rfl
  constructor
  · intro hall
    unfold controllerDeliverTurn
    rw [runCalls_replyStartCount, hinit]
    have hany : (deliveries.map fun d =>
        CoordCall.deliverCall d.1 d.2.1 d.2.2).any triggersLifecycle
        = false := by
      rw [List.any_eq_false]
      intro c hc
      rw [List.mem_map] at hc
      obtain ⟨x, hx, rfl⟩ := hc
      simp [triggersLifecycle, hall x hx]
    rw [hany]
    simp
  · intro pre d post hsplit hpre hd
    have hprecalls : (pre.map fun x =>
        CoordCall.deliverCall x.1 x.2.1 x.2.2).any triggersLifecycle
        = false := by
      rw [List.any_eq_false]
      intro c hc
      rw [List.mem_map] at hc
      obtain ⟨x, hx, rfl⟩ := hc
      simp [triggersLifecycle, hpre x hx]
    have hstate : (runCalls P O initialDeliveryState
        (pre.map fun x =>
          CoordCall.deliverCall x.1 x.2.1 x.2.2)).1.startedReplyLifecycle
        = false := by
      rw [runCalls_started, hinit, hprecalls]
      rfl
    refine ⟨?_, ?_, ?_⟩
    · unfold controllerDeliverTurn
      rw [runCalls_replyStartCount, hinit]
      have hany : (deliveries.map fun x =>
          CoordCall.deliverCall x.1 x.2.1 x.2.2).any triggersLifecycle
          = true := by
        rw [hsplit, List.any_eq_true]
        refine ⟨CoordCall.deliverCall d.1 d.2.1 d.2.2, ?_, ?_⟩
        · rw [List.mem_map]
          exact ⟨d, by simp, rfl⟩
        · simp [triggersLifecycle, hd]
      rw [hany]
      simp
    · rw [runCalls_replyStartCount, hinit, hprecalls]
      simp
    · rw [deliver_replyStartCount, hstate, hd]
      simp

/-- C4 counterexample: a dispatcher sink that throws propagates out of
`deliver` — the result is an error, not a boolean — refuting the claim
that `deliver` never throws for all behaviours of the external sinks. -/
theorem C4_never_throws_counterexample :
    (deliver directParams oraclesFinalThrows initialDeliveryState
        ReplyDispatchKind.final ⟨some "x", none, none⟩ none).1 =
      Except.error "boom" ∧
    ∀ b : Bool, (deliver directParams oraclesFinalThrows initialDeliveryState
        ReplyDispatchKind.final ⟨some "x", none, none⟩ none).1 ≠
      Except.ok b := by
  decide

/-- C4 (amended): provided the TTS transform, route-reply, and the
direct dispatcher sinks adhere to their contracts of resolving with
values rather than throwing, `deliver` never throws, for any behaviour of
the message-action (edit) sink — whose throws are caught inside.  A
throwing TTS/route-reply/dispatcher sink, by contrast, propagates (see
the counterexample). -/
theorem C4_never_throws_amended (P : CoordinatorParams) (O : SinkOracles)
    (st : AcpDispatchDeliveryState) (kind : ReplyDispatchKind)
    (payload : ReplyPayload) (meta : Option AcpDispatchDeliveryMeta)
    (htts : ∀ p, ∃ q, O.tts p = Except.ok q)
    (hroute : ∀ a, ∃ r, O.routeReply a = Except.ok r)
    (htool : ∀ p, ∃ b, O.sendToolResult p = Except.ok b)
    (hblock : ∀ p, ∃ b, O.sendBlockReply p = Except.ok b)
    (hfinal : ∀ p, ∃ b, O.sendFinalReply p = Except.ok b) :
    ∃ b, (deliver P O st kind payload meta).1 = Except.ok b := by
  obtain ⟨q, hq⟩ := htts payload
  unfold deliver
  dsimp only
  rw [hq]
  dsimp only
  split
  · exact deliverRouted_result_ok P O _ kind q meta hroute
  · rw [deliverDirect_result]
    unfold directSinkResult
    cases kind
    · exact htool q
    · exact hblock q
    · exact hfinal q

/-- C5: every non-empty input line that fails to parse as structured
data yields a status event whose text is the trimmed original line; no
such line is dropped. -/
theorem C5_unparseable_line_status (parseJson : String → Option Json) (line : String)
    (hne : jsTrim line ≠ "") (hfail : parseJson (jsTrim line) = none) :
    parsePromptEventLine parseJson line =
      some (AcpRuntimeEvent.status (jsTrim line) none none none) := by
  unfold parsePromptEventLine
  simp [hne, hfail]

/-- C6: delivering block payloads with texts "a" then "b" to a fresh
coordinator yields accumulated block text "a\nb" and block count 2; a
block delivery with empty or whitespace-only text leaves both unchanged;
in general the newline separator is inserted only when prior accumulated
content is non-empty. -/
theorem C6_block_accumulation (P : CoordinatorParams) (O : SinkOracles) :
    (∀ m1 m2 : Option AcpDispatchDeliveryMeta,
      (deliver P O
        (deliver P O initialDeliveryState ReplyDispatchKind.block
          ⟨some "a", none, none⟩ m1).2.1
        ReplyDispatchKind.block ⟨some "b", none, none⟩ m2).2.1.accumulatedBlockText
        = "a\nb" ∧
      (deliver P O
        (deliver P O initialDeliveryState ReplyDispatchKind.block
          ⟨some "a", none, none⟩ m1).2.1
        ReplyDispatchKind.block ⟨some "b", none, none⟩ m2).2.1.blockCount = 2) ∧
    (∀ (st : AcpDispatchDeliveryState) (p : ReplyPayload)
        (meta : Option AcpDispatchDeliveryMeta),
      payloadTrimmedText p = "" →
      (deliver P O st ReplyDispatchKind.block p meta).2.1.accumulatedBlockText =
          st.accumulatedBlockText ∧
        (deliver P O st ReplyDispatchKind.block p meta).2.1.blockCount =
          st.blockCount) ∧
    ∀ (st : AcpDispatchDeliveryState) (p : ReplyPayload)
        (meta : Option AcpDispatchDeliveryMeta),
      payloadTrimmedText p ≠ "" →
      (deliver P O st ReplyDispatchKind.block p meta).2.1.accumulatedBlockText =
        (if st.accumulatedBlockText.length > 0 then
          st.accumulatedBlockText ++ "\n"
        else st.accumulatedBlockText) ++ p.text.getD "" := by
  refine ⟨?_, ?_, ?_⟩
  · intro m1 m2
    have e1 : deliverAccumulate initialDeliveryState ReplyDispatchKind.block
        ⟨some "a", none, none⟩ =
        { initialDeliveryState with
          accumulatedBlockText := "a", blockCount := 1 } := by decide
    have h1 := deliver_accum P O initialDeliveryState ReplyDispatchKind.block
      ⟨some "a", none, none⟩ m1
    rw [e1] at h1
    have h1a : (deliver P O initialDeliveryState ReplyDispatchKind.block
        ⟨some "a", none, none⟩ m1).2.1.accumulatedBlockText = "a" := h1.1
    have h1c : (deliver P O initialDeliveryState ReplyDispatchKind.block
        ⟨some "a", none, none⟩ m1).2.1.blockCount = 1 := h1.2
    have h2 := deliver_accum P O
      (deliver P O initialDeliveryState ReplyDispatchKind.block
        ⟨some "a", none, none⟩ m1).2.1
      ReplyDispatchKind.block ⟨some "b", none, none⟩ m2
    rw [deliverAccumulate_block _ _ (by decide)] at h2
    constructor
    · rw [h2.1]
      dsimp only
      rw [h1a]
      decide
    · rw [h2.2]
      dsimp only
      rw [h1c]
  · intro st p meta h
    have h2 := deliver_accum P O st ReplyDispatchKind.block p meta
    rw [deliverAccumulate_ws st _ p h] at h2
    exact h2
  · intro st p meta h
    have h2 := deliver_accum P O st ReplyDispatchKind.block p meta
    rw [deliverAccumulate_block st p h] at h2
    exact h2.1

/-- C7: over any sequence of `startReplyLifecycle` and `deliver` calls
on one coordinator, the reply-start callback fires at most once in total;
it fires exactly once iff at least one call is a direct start or a
deliver whose payload has non-whitespace text or a media reference; a
deliver with an empty payload never triggers it. -/
theorem C7_lifecycle_idempotent (P : CoordinatorParams) (O : SinkOracles)
    (calls : List CoordCall) :
    countReplyStarts (runCalls P O initialDeliveryState calls).2 ≤ 1 ∧
      countReplyStarts (runCalls P O initialDeliveryState calls).2 =
        (if calls.any triggersLifecycle then 1 else 0) ∧
      ∀ (st : AcpDispatchDeliveryState) (kind : ReplyDispatchKind)
        (meta : Option AcpDispatchDeliveryMeta),
        countReplyStarts
          (deliver P O st kind ⟨none, none, none⟩ meta).2.2 = 0 := by
  have hc := runCalls_replyStartCount P O calls initialDeliveryState
  have hinit : initialDeliveryState.startedReplyLifecycle = false := rfl
  rw [hinit] at hc
  refine ⟨?_, ?_, ?_⟩
  · rw [hc]
    split <;> simp
  · rw [hc]
    simp
  · intro st kind meta
    rw [deliver_replyStartCount]
    have h : hasVisibleContent ⟨none, none, none⟩ = false := by decide
    rw [h]
    simp

/-- C8: for every `session/update` envelope whose update has
`sessionUpdate = "usage_update"`: when both `used` and `size` are finite
numbers the projector yields exactly the tagged status event with text
"usage updated: used/size" carrying both numbers; otherwise the text is
"usage updated" and each non-finite/absent field is omitted, never
treated as zero. -/
theorem C8_usage_update_projection (parseJson : String → Option Json) (line : String)
    (env ps update : JsonObj)
    (hne : jsTrim line ≠ "")
    (hparse : parseJson (jsTrim line) = some (Json.obj env))
    (hmethod : asTrimmedString (jsonGet env "method") = "session/update")
    (hps : jsonGet env "params" = some (Json.obj ps))
    (hupdate : jsonGet ps "update" = some (Json.obj update))
    (hsu : jsonGet update "sessionUpdate" = some (Json.str "usage_update")) :
    (∀ u s : JsNumber,
      jsonGet update "used" = some (Json.num u) → u.finite = true →
      jsonGet update "size" = some (Json.num s) → s.finite = true →
      parsePromptEventLine parseJson line =
        some (AcpRuntimeEvent.status
          ("usage updated: " ++ u.asStr ++ "/" ++ s.asStr)
          (some "usage_update") (some u) (some s))) ∧
    ((asOptionalFiniteNumber (jsonGet update "used") = none ∨
        asOptionalFiniteNumber (jsonGet update "size") = none) →
      parsePromptEventLine parseJson line =
        some (AcpRuntimeEvent.status "usage updated" (some "usage_update")
          (asOptionalFiniteNumber (jsonGet update "used"))
          (asOptionalFiniteNumber (jsonGet update "size")))) := by
  have hres : resolveStructuredPromptPayload env =
      { type := "usage_update", payload := update,
        tag := some "usage_update" } := by
    unfold resolveStructuredPromptPayload
    rw [hmethod]
    simp [hps, hupdate, isRecordOpt, asOptionalString, hsu, optStrIfTruthy]
  constructor
  · intro u s hu hfu hs hfs
    unfold parsePromptEventLine
    simp only [hne, hparse, if_neg]
    rw [hres]
    unfold parseStructuredPromptEvent
    simp [asOptionalFiniteNumber, hu, hs, hfu, hfs]
  · intro hmiss
    unfold parsePromptEventLine
    simp only [hne, hparse, if_neg]
    rw [hres]
    unfold parseStructuredPromptEvent
    rcases hmiss with hmiss | hmiss <;> simp [hmiss]

/-- C9: without originating-channel routing, `deliver` delegates to the
kind-specific dispatcher sink and returns its result verbatim, never
calls route-reply or the edit action, and never touches the routed
counters — after any sequence of such calls `getRoutedCounts` still
reports zero for every kind. -/
theorem C9_direct_dispatch_path (P : CoordinatorParams) (O : SinkOracles)
    (hdm : (P.shouldRouteToOriginating && optStrTruthy P.originatingChannel
      && optStrTruthy P.originatingTo) = false) :
    (∀ (st : AcpDispatchDeliveryState) (kind : ReplyDispatchKind)
        (payload : ReplyPayload) (meta : Option AcpDispatchDeliveryMeta),
      (deliver P O st kind payload meta).2.1.routedCounts = st.routedCounts ∧
        countRouteReplyCalls (deliver P O st kind payload meta).2.2 = 0 ∧
        ∀ tp, O.tts payload = Except.ok tp →
          (deliver P O st kind payload meta).1 = directSinkResult O kind tp) ∧
    ∀ calls : List CoordCall,
      ∀ kind, (getRoutedCounts (runCalls P O initialDeliveryState calls).1).get
        kind = 0 := by
  constructor
  · intro st kind payload meta
    have h := deliver_direct_mode P O st kind payload meta hdm
    exact ⟨h.1, h.2.2.1, h.2.2.2.2⟩
  · intro calls kind
    have h := runCalls_direct_counts P O hdm calls initialDeliveryState
    rw [getRoutedCounts, h]
    cases kind <;> rfl

/-- C10 counterexample: an error object without a message projects to
message "acpx runtime error", not "runtime error" as the claim states. -/
theorem C10_error_default_counterexample :
    parsePromptEventLine
      (fun s => if s = "errline" then
        some (Json.obj [("type", Json.str "error")]) else none)
      "errline" =
      some (AcpRuntimeEvent.error "acpx runtime error" none none) ∧
    ("acpx runtime error" : String) ≠ "runtime error" := by
  constructor
  · decide
  · decide

/-- C10 (amended): for every structured event line whose resolved type
is "error" and whose message is absent or trims to empty, the projector
yields an error event whose message is exactly "acpx runtime error"; the
optional code and retryable fields are preserved when present. -/
theorem C10_error_default_amended (parseJson : String → Option Json) (line : String)
    (fields : JsonObj)
    (hne : jsTrim line ≠ "")
    (hparse : parseJson (jsTrim line) = some (Json.obj fields))
    (htype : (resolveStructuredPromptPayload fields).type = "error")
    (hmsg : asTrimmedString
      (jsonGet (resolveStructuredPromptPayload fields).payload "message") = "") :
    parsePromptEventLine parseJson line =
      some (AcpRuntimeEvent.error "acpx runtime error"
        (asOptionalString
          (jsonGet (resolveStructuredPromptPayload fields).payload "code"))
        (asOptionalBoolean
          (jsonGet (resolveStructuredPromptPayload fields).payload
            "retryable"))) ∧
      (∀ c, jsonGet (resolveStructuredPromptPayload fields).payload "code" =
          some (Json.str c) →
        asOptionalString
          (jsonGet (resolveStructuredPromptPayload fields).payload "code") =
          some c) ∧
      ∀ b, jsonGet (resolveStructuredPromptPayload fields).payload
          "retryable" = some (Json.bool b) →
        asOptionalBoolean
          (jsonGet (resolveStructuredPromptPayload fields).payload
            "retryable") = some b := by
  refine ⟨?_, ?_, ?_⟩
  · unfold parsePromptEventLine
    simp only [hne, hparse, if_neg]
    unfold parseStructuredPromptEvent
    rw [htype]
    simp [strOr, hmsg]
  · intro c hc
    rw [hc]
    rfl
  · intro b hb
    rw [hb]
    rfl


/-! ## Concrete witnesses -/

/-- Witness for C1 at the repository's test scenario: call id `call-1`,
recorded message `tool-msg-1`, well-behaved collaborators. -/
theorem C1_edit_before_send_witness :
    (deliver routedParams oraclesEditOk
        (deliver routedParams oraclesEditOk initialDeliveryState
          ReplyDispatchKind.tool
          ⟨some "Run command (in_progress)", none, none⟩
          (some ⟨some "call-1", none⟩)).2.1
        ReplyDispatchKind.tool ⟨some "Run command (completed)", none, none⟩
        (some ⟨some "call-1", some true⟩)).1 = Except.ok true ∧
      countRouteReplyCalls (deliver routedParams oraclesEditOk
        (deliver routedParams oraclesEditOk initialDeliveryState
          ReplyDispatchKind.tool
          ⟨some "Run command (in_progress)", none, none⟩
          (some ⟨some "call-1", none⟩)).2.1
        ReplyDispatchKind.tool ⟨some "Run command (completed)", none, none⟩
        (some ⟨some "call-1", some true⟩)).2.2 = 0 := by
  have h := C1_edit_before_send routedParams oraclesEditOk "call-1"
    "tool-msg-1" "Run command (in_progress)" "Run command (completed)"
    (by decide) (by decide) (by decide) (by decide) (by decide)
    (fun p => rfl) (fun a => rfl) (fun a => rfl)
  exact ⟨h.2.2.1, h.2.2.2.1⟩

/-- Witness for the amended C2 at the repository's test scenario: the
edit rejects, and the same `deliver` call falls back to route-reply. -/
theorem C2_edit_fallback_witness :
    (deliver routedParams oraclesEditThrows
        (deliver routedParams oraclesEditThrows initialDeliveryState
          ReplyDispatchKind.tool ⟨some "step one", none, none⟩
          (some ⟨some "call-3", none⟩)).2.1
        ReplyDispatchKind.tool ⟨some "step two", none, none⟩
        (some ⟨some "call-3", some true⟩)).1 = Except.ok true ∧
      countEditCalls (deliver routedParams oraclesEditThrows
        (deliver routedParams oraclesEditThrows initialDeliveryState
          ReplyDispatchKind.tool ⟨some "step one", none, none⟩
          (some ⟨some "call-3", none⟩)).2.1
        ReplyDispatchKind.tool ⟨some "step two", none, none⟩
        (some ⟨some "call-3", some true⟩)).2.2 = 1 ∧
      countRouteReplyCalls (deliver routedParams oraclesEditThrows
        (deliver routedParams oraclesEditThrows initialDeliveryState
          ReplyDispatchKind.tool ⟨some "step one", none, none⟩
          (some ⟨some "call-3", none⟩)).2.1
        ReplyDispatchKind.tool ⟨some "step two", none, none⟩
        (some ⟨some "call-3", some true⟩)).2.2 = 1 :=
  C2_edit_fallback_amended routedParams oraclesEditThrows "call-3"
    "tool-msg-1" "step one" "step two" "edit unsupported"
    (by decide) (by decide) (by decide) (by decide) (by decide)
    (fun p => rfl) (fun a => rfl) (fun a => rfl)

/-- Witness for C3: a turn whose first delivery is hidden (empty payload)
and whose second carries visible text starts the reply lifecycle exactly
once. -/
theorem C3_lifecycle_turn_witness :
    countReplyStarts (controllerDeliverTurn directParams oraclesEditOk
      [(ReplyDispatchKind.final, ⟨none, none, none⟩, none),
       (ReplyDispatchKind.block, ⟨some "hello", none, none⟩, none)]).2
      = 1 := by
  have h := (C3_lifecycle_turn directParams oraclesEditOk
      [(ReplyDispatchKind.final, ⟨none, none, none⟩, none),
       (ReplyDispatchKind.block, ⟨some "hello", none, none⟩, none)]).2
    [(ReplyDispatchKind.final, ⟨none, none, none⟩, none)]
    (ReplyDispatchKind.block, ⟨some "hello", none, none⟩, none)
    [] rfl (by decide) (by decide)
  exact h.1

/-- Witness for the amended C4: with contract-abiding collaborators,
`deliver` resolves with a boolean. -/
theorem C4_never_throws_witness :
    ∃ b, (deliver directParams oraclesEditOk initialDeliveryState
      ReplyDispatchKind.final ⟨some "hello", none, none⟩ none).1 =
      Except.ok b :=
  C4_never_throws_amended directParams oraclesEditOk initialDeliveryState
    ReplyDispatchKind.final ⟨some "hello", none, none⟩ none
    (fun p => ⟨p, rfl⟩) (fun _ => ⟨⟨true, some "tool-msg-1", none⟩, rfl⟩)
    (fun _ => ⟨true, rfl⟩) (fun _ => ⟨true, rfl⟩) (fun _ => ⟨true, rfl⟩)

/-- Witness for C5: a non-empty unparseable line degrades to a status
event carrying its trimmed text. -/
theorem C5_unparseable_line_witness :
    jsTrim "  plain diagnostic  " ≠ "" ∧
      parsePromptEventLine (fun _ => none) "  plain diagnostic  " =
        some (AcpRuntimeEvent.status (jsTrim "  plain diagnostic  ")
          none none none) ∧
      jsTrim "  plain diagnostic  " = "plain diagnostic" :=
  ⟨by decide,
    C5_unparseable_line_status (fun _ => none) "  plain diagnostic  "
      (by decide) rfl,
    by decide⟩

/-- Witness for C6: the "a" then "b" scenario and a whitespace-only block
delivery on a fresh coordinator. -/
theorem C6_block_accumulation_witness :
    (deliver directParams oraclesEditOk
        (deliver directParams oraclesEditOk initialDeliveryState
          ReplyDispatchKind.block ⟨some "a", none, none⟩ none).2.1
        ReplyDispatchKind.block ⟨some "b", none, none⟩
        none).2.1.accumulatedBlockText = "a\nb" ∧
      (deliver directParams oraclesEditOk initialDeliveryState
        ReplyDispatchKind.block ⟨some "   ", none, none⟩
        none).2.1.accumulatedBlockText =
        initialDeliveryState.accumulatedBlockText := by
  have h := C6_block_accumulation directParams oraclesEditOk
  exact ⟨(h.1 none none).1,
    (h.2.1 initialDeliveryState ⟨some "   ", none, none⟩ none (by decide)).1⟩

/-- Witness for C8 at the repository's test envelope (`used = 12`,
`size = 500`). -/
theorem C8_usage_update_witness :
    parsePromptEventLine usageParseOracle "usage-line" =
      some (AcpRuntimeEvent.status "usage updated: 12/500"
        (some "usage_update") (some ⟨true, "12"⟩) (some ⟨true, "500"⟩)) :=
  (C8_usage_update_projection usageParseOracle "usage-line" usageEnvFields
    usageParamsFields usageUpdateFields (by decide) rfl (by decide) rfl rfl
    rfl).1 ⟨true, "12"⟩ ⟨true, "500"⟩ rfl rfl rfl rfl

/-- Witness for C9: a direct-dispatch block delivery returns the
dispatcher sink's result and the routed counters stay zero. -/
theorem C9_direct_dispatch_witness :
    (deliver directParams oraclesEditOk initialDeliveryState
        ReplyDispatchKind.block ⟨some "hello", none, none⟩ none).1 =
      directSinkResult oraclesEditOk ReplyDispatchKind.block
        ⟨some "hello", none, none⟩ ∧
      (getRoutedCounts (runCalls directParams oraclesEditOk
        initialDeliveryState
        [CoordCall.deliverCall ReplyDispatchKind.block
          ⟨some "hello", none, none⟩ none,
         CoordCall.deliverCall ReplyDispatchKind.final
          ⟨some "bye", none, none⟩ none]).1).get ReplyDispatchKind.tool
        = 0 := by
  have h := C9_direct_dispatch_path directParams oraclesEditOk (by decide)
  exact ⟨(h.1 initialDeliveryState ReplyDispatchKind.block
      ⟨some "hello", none, none⟩ none).2.2 ⟨some "hello", none, none⟩ rfl,
    h.2 [CoordCall.deliverCall ReplyDispatchKind.block
        ⟨some "hello", none, none⟩ none,
      CoordCall.deliverCall ReplyDispatchKind.final
        ⟨some "bye", none, none⟩ none] ReplyDispatchKind.tool⟩

/-- Witness for the amended C10: an error object without a message but
with a code and a retryable flag keeps both and gets the default
message. -/
theorem C10_error_default_witness :
    parsePromptEventLine errorParseOracle "error-line" =
      some (AcpRuntimeEvent.error "acpx runtime error" (some "E42")
        (some true)) := by
  have h := (C10_error_default_amended errorParseOracle "error-line"
    errorFlatFields (by decide) rfl (by decide) (by decide)).1
  exact h.trans (by decide)

end OpenClaw
